import Mathlib

/-!
# AutoFlight: the AR.Drone flight controller (src/ardrone/ardrone.cpp)

A shallow embedding of the class ARDrone.  The object is a record of its member
variables; every member function becomes a function from the record to a result
and a new record.  The three collaborators owned by the object (the command
link _cl, the navdata manager _nm and the video manager _vm) are not part of the
sources: every call made to them is appended to a ghost field trace, and what
they answer (a return value, or a thrown error) is an explicit input.

Conventions.
* A finite C++ float or double is the rational number it denotes.  Every arithmetic
  operation of the source on floats is the exact operation followed by the IEEE 754
  rounding to nearest, ties to even, into binary32 (binary64 where the source computes in
  double), with overflow to an infinity.  Floats that come from outside (arguments, axis
  states) are finite; NaN and the sign of a zero are not modelled.  Every operation is
  evaluated in the precision of its type (FLT_EVAL_METHOD 0).
* The constants of afconstants.h are not part of the sources; the ones the code
  compares against or passes on are the fields of AFConstants.
* The two mutexes only delimit critical sections; every member function is
  modelled as one atomic step.
* Console output is not modelled.
* A read through a pointer that points to nothing, or at an index outside an array,
  has no defined result: the function that makes it returns none.
-/

namespace AutoFlight

/-! ## Data model -/

/-- The AT command objects built in ardrone.cpp (atcommands/*.h), by class name and
constructor arguments. -/
inductive ATCommand where
  | ConfigIDSCommand
  | ConfigCommand (field value : String)
  | ControlCommand (mode : Int)
  | AttitudeCommand (phi theta gaz yaw : ℚ)
  | EmergencyCommand (enable : Bool)
  | FlatTrimCommand
  | FlipCommand (direction : Int)
  | HoverCommand
  | LandCommand
  | MagnetometerCalibrationCommand
  | RecordOnUSBCommand (enable : Bool)
  | TakeOffCommand
  | ZapCommand (front : Bool)
  deriving DecidableEq

/-- One call made by the controller to a collaborator (the command link, the navdata
manager, the video manager, the io service, the worker thread, a listener) or to the
clock.  The ghost trace of the controller is the list of these calls in program order. -/
inductive Call where
  | cl_init (ip : String)
  | cl_setAppID
  | cl_sendATCommands (batch : List ATCommand)
  | cl_close
  | nm_init (ip : String)
  | nm_update
  | nm_isConnected
  | nm_getNavdata
  | nm_close
  | vm_init (ip : String)
  | vm_update
  | vm_getVideoFrame
  | vm_takePicture (filename : String)
  | vm_startRecording (filename : String)
  | vm_stopRecording
  | io_service_poll
  | sleep_for (milliseconds : Nat)
  | updater_join
  | navdataAvailable (listener : Nat)
  | videoFrameAvailable (listener : Nat)
  deriving DecidableEq

/-- The navdata record read by the getters (fields used in ardrone.cpp). -/
structure Navdata where
  psi : ℚ
  theta : ℚ
  phi : ℚ
  vx : ℚ
  vy : ℚ
  vz : ℚ
  altitude : ℚ
  ax : ℚ
  ay : ℚ
  az : ℚ
  vbatpercentage : ℚ

/-- The controller configuration read by processControllerInput: a device id and, for
every control, the index of the button or axis bound to it (negative: not bound). -/
structure ControllerConfiguration where
  deviceID : Int
  takeoff : Int
  land : Int
  zap : Int
  photo : Int
  recording : Int
  flip : Int
  slow : Int
  rollM : Int
  rollP : Int
  roll : Int
  pitchM : Int
  pitchP : Int
  pitch : Int
  heightM : Int
  heightP : Int
  height : Int
  yawM : Int
  yawP : Int
  yaw : Int

/-- The values of ardrone::position. -/
structure position where
  x : ℚ
  y : ℚ
  deriving DecidableEq

/-- Modelled from the spec: the result constants of ardrone::connection (afconstants.h
is not among the sources); the spec lists the four results of connect() as
Established, Failed, AlreadyConnected and ExceptionOccurred. -/
inductive connection where
  | CONNECTION_ESTABLISHED
  | CONNECTION_FAILED
  | ALREADY_CONNECTED
  | EXCEPTION_OCCURRED
  deriving DecidableEq

/-! ## IEEE 754 arithmetic of the types float and double -/

/-- The value of a float or double expression: a finite value, given by the rational number
it denotes, or an infinity with its sign. -/
inductive float where
  | finite (value : ℚ)
  | infinity (negative : Bool)
  deriving DecidableEq

/-- Rounding of a rational number to the nearest integer, a tie going to the even
integer. -/
def roundNearestEven (y : ℚ) : ℤ :=
  if y - ⌊y⌋ < 1 / 2 then ⌊y⌋
  else if 1 / 2 < y - ⌊y⌋ then ⌊y⌋ + 1
  else if ⌊y⌋ % 2 = 0 then ⌊y⌋
  else ⌊y⌋ + 1

/-- The distance between neighbouring numbers of the binary format with p significand bits
and least exponent emin, at the magnitude of x: 2 ^ (e - (p - 1)) where e is the binary
exponent of x, or emin in the subnormal range. -/
def ulp (p : ℕ) (emin : ℤ) (x : ℚ) : ℚ :=
  (2 : ℚ) ^ (max (Int.log 2 |x|) emin - ((p : ℤ) - 1))

/-- Rounding to nearest, ties to even, into the binary format with p significand bits and
least exponent emin, the exponent being unbounded above. -/
def roundBinary (p : ℕ) (emin : ℤ) (x : ℚ) : ℚ :=
  roundNearestEven (x / ulp p emin x) * ulp p emin x

/-- The overflow rule of rounding to nearest: a rounded magnitude of 2 ^ (emax + 1) or more
becomes the infinity with the sign of the exact value x. -/
def overflow (emax : ℤ) (x r : ℚ) : float :=
  if (2 : ℚ) ^ (emax + 1) ≤ |r| then float.infinity (decide (x < 0)) else float.finite r

/-- Rounding into binary32 (24 significand bits, exponents -126 to 127), without the
overflow rule. -/
def round32 (x : ℚ) : ℚ :=
  roundBinary 24 (-126) x

/-- The float that an exact value rounds to. -/
def fl32 (x : ℚ) : float :=
  overflow 127 x (round32 x)

/-- Rounding into binary64 (53 significand bits, exponents -1022 to 1023), without the
overflow rule. -/
def round64 (x : ℚ) : ℚ :=
  roundBinary 53 (-1022) x

/-- The double that an exact value rounds to. -/
def fl64 (x : ℚ) : float :=
  overflow 1023 x (round64 x)

/-- The rational number x is the value of a finite float. -/
def isFloat32 (x : ℚ) : Prop :=
  fl32 x = float.finite x

/-- Whether a rational number is the value of a float can be computed. -/
instance isFloat32.decidable (x : ℚ) : Decidable (isFloat32 x) :=
  inferInstanceAs (Decidable (fl32 x = float.finite x))

/-- The value of the float literal 0.1f, the float nearest to 1/10. -/
def float_0_1 : ℚ :=
  13421773 / 134217728

/-- The value of the float literal 0.3f, the float nearest to 3/10. -/
def float_0_3 : ℚ :=
  5033165 / 16777216

/-- The value of the float literal 0.5f. -/
def float_0_5 : ℚ :=
  1 / 2

/-- The constants of afconstants.h that ardrone.cpp compares against or passes on, and
the number formatting of std::to_string; their values are parameters of the model. -/
structure AFConstants where
  FRONT : Int
  BOTTOM : Int
  LEFT : Int
  YAW_SPEED_MAX : String
  TILT_MAX : String
  ALTITUDE_MAX : String
  VIDEO_CODEC : String
  MP4_360P : String
  MP4_360P_H264_720P : String
  to_string : float → String

/-- The value of the double constant M_PI, 0x1.921fb54442d18p+1.  The literal
3.14159265358979323846 of math.h and the longer fallback literal at the top of ardrone.cpp
both round to this double. -/
def M_PI : ℚ :=
  884279719003555 / 281474976710656

/-- The expression value * M_PI / 180.0 assigned to the float value: the float operand is
widened to double, the product and the quotient are each rounded to double, and the
assignment narrows the quotient to float. -/
def mul_M_PI_div_180 (value : ℚ) : float :=
  match fl64 (value * M_PI) with
  | float.infinity negative => float.infinity negative
  | float.finite product =>
    match fl64 (product / 180) with
    | float.infinity negative => float.infinity negative
    | float.finite quotient => fl32 quotient

/-- The member variables of ARDrone, and the ghost trace of collaborator calls.
The worker thread pointer _updater is kept as a flag: true when it is not NULL. -/
structure ARDrone where
  _ip : String
  _connected : Bool
  _stop_flag : Bool
  _updater : Bool
  _nd : Option Navdata
  _ndlisteners : List Nat
  _vlisteners : List Nat
  _controllerconfig : Option ControllerConfiguration
  _commandqueue : List ATCommand
  _phi : ℚ
  _theta : ℚ
  _gaz : ℚ
  _yaw : ℚ
  _flying : Bool
  _isRecording : Bool
  _currentView : Int
  trace : List Call

/-- Ghost step: a call to a collaborator is appended to the trace. -/
def ARDrone.record (s : ARDrone) (c : Call) : ARDrone :=
  { s with trace := s.trace ++ [c] }

/-- The vector operation _commandqueue.push_back. -/
def ARDrone.push_back (s : ARDrone) (c : ATCommand) : ARDrone :=
  { s with _commandqueue := s._commandqueue ++ [c] }

/-- What a call to _vm.startRecording or _vm.stopRecording does: it returns a flag, or
throws the runtime_error that the caller catches. -/
inductive VideoResult where
  | returned (ok : Bool)
  | runtime_error
  deriving DecidableEq

/-- The inputs of a discrete operation that come from outside the object: the local
time already formatted by to_iso_timestamp, and the answers of the video manager. -/
structure Env where
  timestamp : String
  startRecording : VideoResult
  stopRecording : VideoResult
  deriving DecidableEq

/-! ## Connection state and control functions -/

/-- ARDrone::isConnected. -/
def isConnected (s : ARDrone) : Bool :=
  s._connected

/-- ARDrone::drone_isFlying. -/
def drone_isFlying (s : ARDrone) : Bool :=
  if !isConnected s then false else s._flying

/-- ARDrone::drone_isRecording. -/
def drone_isRecording (s : ARDrone) : Bool :=
  if !isConnected s then false else s._isRecording

/-- ARDrone::drone_getPosition.  The local p is declared without an initialiser and
returned unchanged when connected; its indeterminate content is the argument p. -/
def drone_getPosition (p : position) (s : ARDrone) : position :=
  if !isConnected s then { x := -1, y := -1 } else p

/-- ARDrone::drone_calibmagneto. -/
def drone_calibmagneto (s : ARDrone) : Bool × ARDrone :=
  if !isConnected s then (false, s)
  else (true, s.push_back ATCommand.MagnetometerCalibrationCommand)

/-- ARDrone::drone_changeView. -/
def drone_changeView (k : AFConstants) (view : Int) (s : ARDrone) : Bool × ARDrone :=
  if !isConnected s then (false, s)
  else
    let s1 := s.push_back ATCommand.ConfigIDSCommand
    let s2 := s1.push_back (ATCommand.ZapCommand (if view = k.FRONT then true else false))
    (true, { s2 with _currentView := view })

/-- ARDrone::drone_emergency. -/
def drone_emergency (s : ARDrone) : Bool × ARDrone :=
  if !isConnected s then (false, s)
  else (true, { s.push_back (ATCommand.EmergencyCommand true) with _flying := false })

/-- ARDrone::drone_flattrim. -/
def drone_flattrim (s : ARDrone) : Bool × ARDrone :=
  if !isConnected s then (false, s)
  else (true, s.push_back ATCommand.FlatTrimCommand)

/-- ARDrone::drone_flip. -/
def drone_flip (direction : Int) (s : ARDrone) : Bool × ARDrone :=
  if !isConnected s then (false, s)
  else (true, s.push_back (ATCommand.FlipCommand direction))

/-- ARDrone::drone_hover. -/
def drone_hover (s : ARDrone) : Bool × ARDrone :=
  if !isConnected s then (false, s)
  else (true, { s with _phi := 0, _theta := 0, _gaz := 0, _yaw := 0 })

/-- ARDrone::drone_land. -/
def drone_land (s : ARDrone) : Bool × ARDrone :=
  if !isConnected s then (false, s)
  else (true, { s.push_back ATCommand.LandCommand with _flying := false })

/-- ARDrone::drone_move. -/
def drone_move (phi theta gaz yaw : ℚ) (s : ARDrone) : Bool × ARDrone :=
  if !isConnected s then (false, s)
  else (true, { s with _phi := phi, _theta := theta, _gaz := gaz, _yaw := yaw })

/-- ARDrone::drone_pair(string mac_address). -/
def drone_pair (mac_address : String) (s : ARDrone) : Bool × ARDrone :=
  if !isConnected s then (false, s)
  else
    let s1 := s.push_back ATCommand.ConfigIDSCommand
    (true, s1.push_back (ATCommand.ConfigCommand "network:owner_mac" mac_address))

/-- The unit conversion at the start of ARDrone::drone_setConfiguration(string, float): the
new content of the float variable value.  The product value * 10 is a float product. -/
def drone_setConfiguration_value (k : AFConstants) (field : String) (value : ℚ) : float :=
  if field = k.YAW_SPEED_MAX ∨ field = k.TILT_MAX then mul_M_PI_div_180 value
  else if field = k.ALTITUDE_MAX then fl32 (value * 10)
  else float.finite value

/-- ARDrone::drone_setConfiguration(string field, float value). -/
def drone_setConfiguration_float (k : AFConstants) (field : String) (value : ℚ)
    (s : ARDrone) : Bool × ARDrone :=
  if !isConnected s then (false, s)
  else
    let value := drone_setConfiguration_value k field value
    let s1 := s.push_back ATCommand.ConfigIDSCommand
    (true, s1.push_back (ATCommand.ConfigCommand field (k.to_string value)))

/-- ARDrone::drone_setConfiguration(string field, string value). -/
def drone_setConfiguration_string (field value : String) (s : ARDrone) : Bool × ARDrone :=
  if !isConnected s then (false, s)
  else
    let s1 := s.push_back ATCommand.ConfigIDSCommand
    (true, s1.push_back (ATCommand.ConfigCommand field value))

/-- ARDrone::drone_startRecordingOnUSB. -/
def drone_startRecordingOnUSB (s : ARDrone) : Bool × ARDrone :=
  if !isConnected s then (false, s)
  else
    let s1 := s.push_back ATCommand.ConfigIDSCommand
    (true, s1.push_back (ATCommand.RecordOnUSBCommand true))

/-- ARDrone::drone_stopRecordingOnUSB. -/
def drone_stopRecordingOnUSB (s : ARDrone) : Bool × ARDrone :=
  if !isConnected s then (false, s)
  else
    let s1 := s.push_back ATCommand.ConfigIDSCommand
    (true, s1.push_back (ATCommand.RecordOnUSBCommand false))

/-- ARDrone::drone_takeOff. -/
def drone_takeOff (s : ARDrone) : Bool × ARDrone :=
  if !isConnected s then (false, s)
  else (true, { s.push_back ATCommand.TakeOffCommand with _flying := true })

/-- ARDrone::drone_toggleView. -/
def drone_toggleView (k : AFConstants) (s : ARDrone) : Bool × ARDrone :=
  if !isConnected s then (false, s)
  else if s._currentView = k.BOTTOM then (true, (drone_changeView k k.FRONT s).2)
  else (true, (drone_changeView k k.BOTTOM s).2)

/-- ARDrone::drone_unpair. -/
def drone_unpair (s : ARDrone) : Bool × ARDrone :=
  if !isConnected s then (false, s)
  else (true, (drone_pair "00:00:00:00:00:00" s).2)

/-- ARDrone::drone_takePicture. -/
def drone_takePicture (env : Env) (s : ARDrone) : Bool × ARDrone :=
  if !isConnected s then (false, s)
  else
    let filename := "Pic_" ++ env.timestamp ++ ".jpg"
    (true, s.record (Call.vm_takePicture filename))

/-- ARDrone::drone_startRecording. -/
def drone_startRecording (k : AFConstants) (env : Env) (s : ARDrone) : Bool × ARDrone :=
  if !isConnected s then (false, s)
  else
    let s1 := (drone_setConfiguration_string k.VIDEO_CODEC k.MP4_360P_H264_720P s).2
    let filename := "Vid_" ++ env.timestamp ++ ".mp4"
    let s2 := s1.record (Call.vm_startRecording filename)
    match env.startRecording with
    | VideoResult.returned true => (true, { s2 with _isRecording := true })
    | VideoResult.returned false => (true, s2)
    | VideoResult.runtime_error => (true, s2)

/-- ARDrone::drone_stopRecording. -/
def drone_stopRecording (k : AFConstants) (env : Env) (s : ARDrone) : Bool × ARDrone :=
  if !isConnected s then (false, s)
  else
    let s1 := s.record Call.vm_stopRecording
    let s2 :=
      match env.stopRecording with
      | VideoResult.returned true => { s1 with _isRecording := false }
      | VideoResult.returned false => s1
      | VideoResult.runtime_error => s1
    (true, (drone_setConfiguration_string k.VIDEO_CODEC k.MP4_360P s2).2)

/-- ARDrone::drone_toggleRecording. -/
def drone_toggleRecording (k : AFConstants) (env : Env) (s : ARDrone) : Bool × ARDrone :=
  if !isConnected s then (false, s)
  else if s._isRecording then (true, (drone_stopRecording k env s).2)
  else (true, (drone_startRecording k env s).2)

/-- The discrete operations of the public interface, with their arguments. -/
inductive DiscreteOp where
  | takeOff
  | land
  | emergency
  | flattrim
  | flip (direction : Int)
  | calibrateMagnetometer
  | pair (mac_address : String)
  | unpair
  | setConfigurationNumber (field : String) (value : ℚ)
  | setConfigurationString (field value : String)
  | startRecordingOnUSB
  | stopRecordingOnUSB
  | changeView (view : Int)
  | toggleView
  | takePicture
  | startRecording
  | stopRecording
  | toggleRecording
  deriving DecidableEq

/-- The member function that implements each discrete operation. -/
def DiscreteOp.run (k : AFConstants) (env : Env) : DiscreteOp → ARDrone → Bool × ARDrone
  | DiscreteOp.takeOff => drone_takeOff
  | DiscreteOp.land => drone_land
  | DiscreteOp.emergency => drone_emergency
  | DiscreteOp.flattrim => drone_flattrim
  | DiscreteOp.flip direction => drone_flip direction
  | DiscreteOp.calibrateMagnetometer => drone_calibmagneto
  | DiscreteOp.pair mac_address => drone_pair mac_address
  | DiscreteOp.unpair => drone_unpair
  | DiscreteOp.setConfigurationNumber field value => drone_setConfiguration_float k field value
  | DiscreteOp.setConfigurationString field value => drone_setConfiguration_string field value
  | DiscreteOp.startRecordingOnUSB => drone_startRecordingOnUSB
  | DiscreteOp.stopRecordingOnUSB => drone_stopRecordingOnUSB
  | DiscreteOp.changeView view => drone_changeView k view
  | DiscreteOp.toggleView => drone_toggleView k
  | DiscreteOp.takePicture => drone_takePicture env
  | DiscreteOp.startRecording => drone_startRecording k env
  | DiscreteOp.stopRecording => drone_stopRecording k env
  | DiscreteOp.toggleRecording => drone_toggleRecording k env

/-! ## connect -/

/-- What the collaborators answer during one call of connect().  For every call that can
throw, none means that it returns and some code that it throws a
boost::system::system_error whose error code has that value; nm_isConnected is the flag
returned by _nm.isConnected().  The transport is closed at two places: cl_close belongs
to the close of the failure branch, cl_close_handler to the close in the catch block. -/
structure ConnectEnv where
  cl_init : Option Int
  cl_setAppID : Option Int
  cl_sendATCommands : Option Int
  nm_init : Option Int
  nm_update : Option Int
  nm_isConnected : Bool
  vm_init : Option Int
  vm_update : Option Int
  cl_close : Option Int
  nm_close : Option Int
  cl_close_handler : Option Int

/-- No collaborator call throws during connect(). -/
def ConnectEnv.noFault (env : ConnectEnv) : Prop :=
  env.cl_init = none ∧ env.cl_setAppID = none ∧ env.cl_sendATCommands = none ∧
  env.nm_init = none ∧ env.nm_update = none ∧ env.vm_init = none ∧ env.vm_update = none ∧
  env.cl_close = none ∧ env.nm_close = none ∧ env.cl_close_handler = none

/-- One collaborator call inside the try block: the call is recorded; when it throws, the
rest of the block is skipped and the error code reaches the handler. -/
def tryCall (outcome : Option Int) (c : Call) (s : ARDrone)
    (rest : ARDrone → Except Int connection × ARDrone) : Except Int connection × ARDrone :=
  match outcome with
  | some code => (Except.error code, s.record c)
  | none => rest (s.record c)

/-- The configuration batch sent by connect(). -/
def connectBatch : List ATCommand :=
  [ATCommand.ConfigIDSCommand, ATCommand.ConfigCommand "general:navdata_demo" "FALSE",
   ATCommand.ConfigIDSCommand, ATCommand.ConfigCommand "general:navdata_options" "268435455",
   ATCommand.ControlCommand 5]

/-- The try block of ARDrone::connect: the result it returns, or the error code of the
system_error thrown out of it, with the state reached.  The codec constants are taken to
be strings, so the call of drone_setConfiguration is to the (string, string) overload;
the (string, float) overload starts with the same isConnected guard. -/
def connect_try (k : AFConstants) (env : ConnectEnv) (s : ARDrone) :
    Except Int connection × ARDrone :=
  tryCall env.cl_init (Call.cl_init s._ip) s fun s =>
  tryCall env.cl_setAppID Call.cl_setAppID s fun s =>
  let s := s.record (Call.sleep_for 250)
  tryCall env.cl_sendATCommands (Call.cl_sendATCommands connectBatch) s fun s =>
  let s := s.record (Call.sleep_for 50)
  let s := (drone_setConfiguration_string k.VIDEO_CODEC k.MP4_360P s).2
  tryCall env.nm_init (Call.nm_init s._ip) s fun s =>
  let s := s.record (Call.sleep_for 100)
  tryCall env.nm_update Call.nm_update s fun s =>
  let s := { s.record Call.nm_isConnected with _connected := env.nm_isConnected }
  if s._connected then
    tryCall env.vm_init (Call.vm_init s._ip) s fun s =>
    tryCall env.vm_update Call.vm_update s fun s =>
    (Except.ok connection.CONNECTION_ESTABLISHED, s)
  else
    tryCall env.cl_close Call.cl_close s fun s =>
    tryCall env.nm_close Call.nm_close s fun s =>
    (Except.ok connection.CONNECTION_FAILED, s)

/-- The catch block of ARDrone::connect: unless the error code is 1 the transport is
closed, and an error thrown by that close is swallowed. -/
def connect_catch (env : ConnectEnv) (code : Int) (s : ARDrone) : connection × ARDrone :=
  if code ≠ 1 then
    match env.cl_close_handler with
    | some _ => (connection.EXCEPTION_OCCURRED, s.record Call.cl_close)
    | none => (connection.EXCEPTION_OCCURRED, s.record Call.cl_close)
  else (connection.EXCEPTION_OCCURRED, s)

/-- ARDrone::connect. -/
def connect (k : AFConstants) (env : ConnectEnv) (s : ARDrone) : connection × ARDrone :=
  if !s._connected then
    match connect_try k env s with
    | (Except.ok result, s1) => (result, s1)
    | (Except.error code, s1) => connect_catch env code s1
  else (connection.ALREADY_CONNECTED, s)

/-! ## The update loop -/

/-- The exception thrown by startUpdateLoop. -/
inductive NotConnectedException where
  | mk
  deriving DecidableEq

/-- ARDrone::startUpdateLoop. -/
def startUpdateLoop (s : ARDrone) : Except NotConnectedException ARDrone :=
  if s._updater = false then
    if s._connected then Except.ok { s with _stop_flag := false, _updater := true }
    else Except.error NotConnectedException.mk
  else Except.ok s

/-- ARDrone::stopUpdateLoop. -/
def stopUpdateLoop (s : ARDrone) : ARDrone :=
  let s1 := { s with _stop_flag := true, _connected := false }
  if s1._updater then { s1.record Call.updater_join with _updater := false }
  else s1

/-- The state of a gamepad as read by processControllerInput. -/
structure Gamepad_device where
  buttonStates : List Bool
  axisStates : List ℚ

/-- The read device->buttonStates[index]; none when the index is outside the array. -/
def Gamepad_device.button (device : Gamepad_device) (index : Int) : Option Bool :=
  if index < 0 then none else device.buttonStates[index.toNat]?

/-- The read device->axisStates[index]; none when the index is outside the array. -/
def Gamepad_device.axis (device : Gamepad_device) (index : Int) : Option ℚ :=
  if index < 0 then none else device.axisStates[index.toNat]?

/-- The inputs of one iteration of the update loop that come from outside the object. -/
structure TickEnv where
  ops : Env
  navdata : Option Navdata
  frame_empty : Bool
  Gamepad_deviceAtIndex : Int → Option Gamepad_device

/-- The pattern of the trigger reads in processControllerInput: when the guarding index is
not negative, the button at the read index is read, and the action runs when it is
pressed. -/
def trigger (device : Gamepad_device) (guard index : Int) (action : ARDrone → ARDrone)
    (s : ARDrone) : Option ARDrone :=
  if guard ≥ 0 then
    match device.button index with
    | none => none
    | some pressed => some (if pressed then action s else s)
  else some s

/-- The pattern of the axis reads in processControllerInput: the difference of two buttons
when both are bound, else the analog axis when the guarding index is not negative, else
zero. -/
def axisValue (device : Gamepad_device) (minus plus guard index : Int) : Option ℚ :=
  if minus ≥ 0 ∧ plus ≥ 0 then
    match device.button plus, device.button minus with
    | some p, some m => some (0 + (if p then 1 else 0) - (if m then 1 else 0))
    | _, _ => none
  else if guard ≥ 0 then device.axis index
  else some 0

/-- The trigger reads of ARDrone::processControllerInput (take off, land, toggle view,
photo, toggle recording, flip, slow), in source order; the result is the state after the
fired operations and the flag slow. -/
def processControllerInput_triggers (k : AFConstants) (env : TickEnv)
    (cfg : ControllerConfiguration) (device : Gamepad_device) (s : ARDrone) :
    Option (ARDrone × Bool) := do
  let s ← trigger device cfg.takeoff cfg.takeoff (fun s => (drone_takeOff s).2) s
  let s ← trigger device cfg.land cfg.land (fun s => (drone_land s).2) s
  let s ← trigger device cfg.zap cfg.zap (fun s => (drone_toggleView k s).2) s
  let s ← trigger device cfg.photo cfg.photo (fun s => (drone_takePicture env.ops s).2) s
  let s ← trigger device cfg.takeoff cfg.recording
    (fun s => (drone_toggleRecording k env.ops s).2) s
  let s ← trigger device cfg.takeoff cfg.flip (fun s => (drone_flip k.LEFT s).2) s
  let slow ← if cfg.takeoff ≥ 0 then device.button cfg.slow else some false
  some (s, slow)

/-- The axis reads of ARDrone::processControllerInput: the values phi, theta, gaz and yaw
before the slow mode is applied. -/
def processControllerInput_axes (cfg : ControllerConfiguration) (device : Gamepad_device) :
    Option (ℚ × ℚ × ℚ × ℚ) := do
  let phi ← axisValue device cfg.rollM cfg.rollP cfg.roll cfg.roll
  let theta ← axisValue device cfg.pitchM cfg.pitchP cfg.roll cfg.pitch
  let gaz ← axisValue device cfg.heightM cfg.heightP cfg.roll cfg.height
  let yaw ← axisValue device cfg.yawM cfg.yawP cfg.roll cfg.yaw
  some (phi, theta, gaz, yaw)

/-- The end of ARDrone::processControllerInput: the slow mode multiplies the four values by
0.3f or 0.5f, each product being rounded to float (a product of a float with one of these
constants cannot overflow), then the controller hovers when one of the values is smaller
than 0.1f in absolute value and moves otherwise. -/
def processControllerInput_move (slow : Bool) (phi theta gaz yaw : ℚ) (s : ARDrone) :
    ARDrone :=
  let phi := if slow then round32 (phi * float_0_3) else phi
  let theta := if slow then round32 (theta * float_0_3) else theta
  let gaz := if slow then round32 (gaz * float_0_5) else gaz
  let yaw := if slow then round32 (yaw * float_0_5) else yaw
  if |phi| < float_0_1 ∨ |theta| < float_0_1 ∨ |gaz| < float_0_1 ∨ |yaw| < float_0_1 then
    (drone_hover s).2
  else
    (drone_move phi theta gaz yaw s).2

/-- ARDrone::processControllerInput, as the sequence of its three parts; none when a read
falls outside the device arrays or the device does not exist. -/
def processControllerInput (k : AFConstants) (env : TickEnv) (s : ARDrone) : Option ARDrone :=
  match s._controllerconfig with
  | none => some s
  | some cfg =>
    match env.Gamepad_deviceAtIndex cfg.deviceID with
    | none => none
    | some device =>
      match processControllerInput_triggers k env cfg device s with
      | none => none
      | some (s1, slow) =>
        match processControllerInput_axes cfg device with
        | none => none
        | some (phi, theta, gaz, yaw) =>
          some (processControllerInput_move slow phi theta gaz yaw s1)

/-- The block of runUpdateLoop headed "Process command queue": one command derived from
the flight intent is pushed, the queue is sent as one batch and cleared. -/
def processCommandQueue (s : ARDrone) : ARDrone :=
  let s1 :=
    if s._phi = 0 ∧ s._theta = 0 ∧ s._gaz = 0 ∧ s._yaw = 0 then
      s.push_back ATCommand.HoverCommand
    else
      s.push_back (ATCommand.AttitudeCommand s._phi s._theta s._gaz s._yaw)
  let s2 := s1.record (Call.cl_sendATCommands s1._commandqueue)
  { s2 with _commandqueue := [] }

/-- One iteration of the while loop of ARDrone::runUpdateLoop. -/
def runUpdateLoop_iteration (k : AFConstants) (env : TickEnv) (s : ARDrone) : Option ARDrone :=
  let s := s.record (Call.sleep_for 25)
  let s := s.record Call.io_service_poll
  let s := { s.record Call.nm_getNavdata with _nd := env.navdata }
  let s :=
    if s._nd.isSome then s._ndlisteners.foldl (fun s i => s.record (Call.navdataAvailable i)) s
    else s
  match processControllerInput k env s with
  | none => none
  | some s =>
    let s := processCommandQueue s
    let s := s.record Call.vm_getVideoFrame
    if !env.frame_empty then
      some (s._vlisteners.foldl (fun s i => s.record (Call.videoFrameAvailable i)) s)
    else some s

/-! ## Navdata getters -/

/-- The values of ardrone::orientation. -/
structure orientation where
  yaw : ℚ
  pitch : ℚ
  roll : ℚ
  deriving DecidableEq

/-- The values of ardrone::linearvelocity. -/
structure linearvelocity where
  vx : ℚ
  vy : ℚ
  vz : ℚ
  deriving DecidableEq

/-- The values of ardrone::acceleration. -/
structure acceleration where
  ax : ℚ
  ay : ℚ
  az : ℚ
  deriving DecidableEq

/-- ARDrone::drone_getOrientation.  The body reads through the pointer _nd without a test;
none is the outcome of that read when _nd points to no navdata. -/
def drone_getOrientation (s : ARDrone) : Option orientation :=
  if !isConnected s then some { yaw := -1, pitch := -1, roll := -1 }
  else
    match s._nd with
    | none => none
    | some nd => some { yaw := nd.psi, pitch := nd.theta, roll := nd.phi }

/-- ARDrone::drone_getLinearVelocity; none as for drone_getOrientation. -/
def drone_getLinearVelocity (s : ARDrone) : Option linearvelocity :=
  if !isConnected s then some { vx := -1, vy := -1, vz := -1 }
  else
    match s._nd with
    | none => none
    | some nd => some { vx := nd.vx, vy := nd.vy, vz := nd.vz }

/-- ARDrone::drone_getAltitude; none as for drone_getOrientation. -/
def drone_getAltitude (s : ARDrone) : Option ℚ :=
  if !isConnected s then some (-1)
  else
    match s._nd with
    | none => none
    | some nd => some nd.altitude

/-- ARDrone::drone_getAcceleration; none as for drone_getOrientation. -/
def drone_getAcceleration (s : ARDrone) : Option acceleration :=
  if !isConnected s then some { ax := -1, ay := -1, az := -1 }
  else
    match s._nd with
    | none => none
    | some nd => some { ax := nd.ax, ay := nd.ay, az := nd.az }

/-- ARDrone::drone_getBatteryStatus; none as for drone_getOrientation. -/
def drone_getBatteryStatus (s : ARDrone) : Option ℚ :=
  if !isConnected s then some (-1)
  else
    match s._nd with
    | none => none
    | some nd => some nd.vbatpercentage

/-! ## Lifetime of the object and reachable states -/

/-- ARDrone::setControllerConfiguration (the delete of the old configuration has no effect
on the record). -/
def setControllerConfiguration (config : Option ControllerConfiguration) (s : ARDrone) :
    ARDrone :=
  { s with _controllerconfig := config }

/-- Modelled from the spec: the state of a controller right after construction.  The member
initialisers are in ardrone.h, which is not among the sources; the spec has the connection
state start as Disconnected and the worker exist only once startUpdateLoop has spawned it.
Nothing is assumed about the other members. -/
def ARDrone.constructed (s : ARDrone) : Prop :=
  s._connected = false ∧ s._updater = false

/-- The states a controller can be in: a constructed controller, followed by any sequence of
calls of the public functions and, while the worker exists, iterations of the update
loop. -/
inductive Reachable (k : AFConstants) : ARDrone → Prop where
  | constructed (s : ARDrone) : s.constructed → Reachable k s
  | connect (env : ConnectEnv) (s : ARDrone) : Reachable k s → Reachable k (connect k env s).2
  | startUpdateLoop (s s1 : ARDrone) :
      Reachable k s → startUpdateLoop s = Except.ok s1 → Reachable k s1
  | stopUpdateLoop (s : ARDrone) : Reachable k s → Reachable k (stopUpdateLoop s)
  | discrete (env : Env) (op : DiscreteOp) (s : ARDrone) :
      Reachable k s → Reachable k (op.run k env s).2
  | hover (s : ARDrone) : Reachable k s → Reachable k (drone_hover s).2
  | move (phi theta gaz yaw : ℚ) (s : ARDrone) :
      Reachable k s → Reachable k (drone_move phi theta gaz yaw s).2
  | setControllerConfiguration (config : Option ControllerConfiguration) (s : ARDrone) :
      Reachable k s → Reachable k (setControllerConfiguration config s)
  | iteration (env : TickEnv) (s s1 : ARDrone) :
      Reachable k s → s._updater = true → runUpdateLoop_iteration k env s = some s1 →
      Reachable k s1

/-! ## Controller input: auxiliary functions -/

/-- Whether a command is an AttitudeCommand. -/
def ATCommand.isAttitude : ATCommand → Bool
  | ATCommand.AttitudeCommand _ _ _ _ => true
  | _ => false

/-- What the operations fired by the controller input leave alone: the connection flag and
the worker are kept, and the AttitudeCommands in the queue are the same before and
after. -/
def Keeps (s s1 : ARDrone) : Prop :=
  s1._connected = s._connected ∧ s1._updater = s._updater ∧
  s1._commandqueue.filter ATCommand.isAttitude = s._commandqueue.filter ATCommand.isAttitude

/-- The state after n successive calls of drone_toggleView. -/
def toggleViewTimes (k : AFConstants) (n : Nat) (s : ARDrone) : ARDrone :=
  Nat.iterate (fun s => (drone_toggleView k s).2) n s

/-! ## Concrete inputs -/

/-- One choice of values for the constants, used to evaluate the model. -/
def sampleConstants : AFConstants :=
  { FRONT := 0, BOTTOM := 1, LEFT := 18,
    YAW_SPEED_MAX := "control:control_yaw", TILT_MAX := "control:euler_angle_max",
    ALTITUDE_MAX := "control:altitude_max", VIDEO_CODEC := "video:video_codec",
    MP4_360P := "128", MP4_360P_H264_720P := "130",
    to_string := fun v =>
      match v with
      | float.finite q => toString q.num ++ "/" ++ toString q.den
      | float.infinity negative => if negative then "-inf" else "inf" }

/-- A controller that is not connected: empty queue, zero intent, no worker. -/
def disconnectedDrone : ARDrone :=
  { _ip := "192.168.1.1", _connected := false, _stop_flag := false, _updater := false,
    _nd := none, _ndlisteners := [], _vlisteners := [], _controllerconfig := none,
    _commandqueue := [], _phi := 0, _theta := 0, _gaz := 0, _yaw := 0,
    _flying := false, _isRecording := false, _currentView := 0, trace := [] }

/-- A connected controller with one command waiting in the queue. -/
def connectedDrone : ARDrone :=
  { disconnectedDrone with _connected := true, _commandqueue := [ATCommand.FlatTrimCommand] }

/-- An environment of the discrete operations in which the video manager succeeds. -/
def sampleEnv : Env :=
  { timestamp := "20140101T120000", startRecording := VideoResult.returned true,
    stopRecording := VideoResult.returned true }

/-- The collaborators never throw and navdata has been received. -/
def connectEnvOk : ConnectEnv :=
  { cl_init := none, cl_setAppID := none, cl_sendATCommands := none, nm_init := none,
    nm_update := none, nm_isConnected := true, vm_init := none, vm_update := none,
    cl_close := none, nm_close := none, cl_close_handler := none }

/-- The first call, _cl.init, throws a system_error with error code 1. -/
def connectEnvInitThrows1 : ConnectEnv :=
  { connectEnvOk with cl_init := some 1 }

/-- The first call, _cl.init, throws a system_error with error code 2. -/
def connectEnvInitThrows2 : ConnectEnv :=
  { connectEnvOk with cl_init := some 2 }

/-- A navdata record with every field different from -1. -/
def sampleNavdata : Navdata :=
  { psi := 10, theta := 2, phi := 3, vx := 4, vy := 5, vz := 6, altitude := 700,
    ax := 7, ay := 8, az := 9, vbatpercentage := 55 }

/-- A controller that is not connected but still holds a navdata record and set flags. -/
def disconnectedDroneWithNavdata : ARDrone :=
  { disconnectedDrone with _nd := some sampleNavdata, _flying := true, _isRecording := true }

/-- A controller configuration in which every button is bound and the four axes are
analog: buttons 0 to 6 are take off, land, view, photo, recording, flip and slow, axes 0
to 3 are roll, pitch, height and yaw. -/
def sampleConfiguration : ControllerConfiguration :=
  { deviceID := 0, takeoff := 0, land := 1, zap := 2, photo := 3, recording := 4, flip := 5,
    slow := 6, rollM := -1, rollP := -1, roll := 0, pitchM := -1, pitchP := -1, pitch := 1,
    heightM := -1, heightP := -1, height := 2, yawM := -1, yawP := -1, yaw := 3 }

/-- A gamepad with no button pressed and the axes at (0.05, 0.5, 0.5, 0.5). -/
def deviceSmallRoll : Gamepad_device :=
  { buttonStates := [false, false, false, false, false, false, false],
    axisStates := [1 / 20, 1 / 2, 1 / 2, 1 / 2] }

/-- A gamepad with only the slow button held and the four axes at 1. -/
def deviceSlowHeld : Gamepad_device :=
  { buttonStates := [false, false, false, false, false, false, true],
    axisStates := [1, 1, 1, 1] }

/-- The environment of an iteration in which every device id leads to the given gamepad,
no navdata and no video frame arrive, and the video manager succeeds. -/
def tickEnvOf (device : Gamepad_device) : TickEnv :=
  { ops := sampleEnv, navdata := none, frame_empty := true,
    Gamepad_deviceAtIndex := fun _ => some device }

/-- The connected controller with the sample controller configuration. -/
def connectedDroneWithController : ARDrone :=
  { connectedDrone with _controllerconfig := some sampleConfiguration }

/-- The video manager refuses to start recording: startRecording returns false. -/
def envStartFails : Env :=
  { sampleEnv with startRecording := VideoResult.returned false }

/-- The video manager throws a runtime_error when asked to start recording. -/
def envStartThrows : Env :=
  { sampleEnv with startRecording := VideoResult.runtime_error }

/-- The video manager fails to stop recording: stopRecording returns false. -/
def envStopFails : Env :=
  { sampleEnv with stopRecording := VideoResult.returned false }

/-- Navdata has been received, and then _vm.init throws a system_error with error
code 2. -/
def connectEnvVideoInitThrows : ConnectEnv :=
  { connectEnvOk with vm_init := some 2 }

/-- The sample configuration with the recording button not bound. -/
def configurationRecordingUnbound : ControllerConfiguration :=
  { sampleConfiguration with recording := -1 }

/-- The sample configuration with the pitch axis not bound. -/
def configurationPitchUnbound : ControllerConfiguration :=
  { sampleConfiguration with pitch := -1 }

/-- An integer closer than one half to y is what y rounds to. -/
theorem roundNearestEven_eq (y : ℚ) (n : ℤ) (h : |y - n| < 1 / 2) : roundNearestEven y = n := by
  rw [abs_lt] at h
  obtain ⟨hl, hu⟩ := h
  unfold roundNearestEven
  by_cases hy : (n : ℚ) ≤ y
  · have hf : ⌊y⌋ = n := Int.floor_eq_iff.mpr ⟨hy, by linarith⟩
    rw [hf, if_pos (by linarith)]
  · have hy2 : y < n := lt_of_not_le hy
    have hf : ⌊y⌋ = n - 1 := Int.floor_eq_iff.mpr ⟨by push_cast; linarith, by push_cast; linarith⟩
    rw [hf]
    have h1 : ¬ (y - ((n - 1 : ℤ) : ℚ) < 1 / 2) := by push_cast; linarith
    have h2 : 1 / 2 < y - ((n - 1 : ℤ) : ℚ) := by push_cast; linarith
    rw [if_neg h1, if_pos h2]
    ring

/-- Rounding to an integer moves a number by at most one half. -/
theorem abs_roundNearestEven_sub_le (y : ℚ) : |(roundNearestEven y : ℚ) - y| ≤ 1 / 2 := by
  have h1 := Int.floor_le y
  have h2 := Int.lt_floor_add_one y
  unfold roundNearestEven
  rw [abs_le]
  split_ifs with a b c
  · constructor <;> linarith
  · constructor <;> push_cast <;> linarith
  · constructor <;> linarith
  · constructor <;> push_cast <;> linarith

/-- The binary exponent of x is e when 2 ^ e ≤ |x| < 2 ^ (e + 1). -/
theorem log_eq_of_binade (x : ℚ) (e : ℤ) (h1 : (2 : ℚ) ^ e ≤ |x|) (h2 : |x| < (2 : ℚ) ^ (e + 1)) :
    Int.log 2 |x| = e := by
  have hpos : (0 : ℚ) < |x| := lt_of_lt_of_le (by positivity) h1
  have ha : e ≤ Int.log 2 |x| := by
    rw [← Int.zpow_le_iff_le_log (by norm_num) hpos]
    simpa using h1
  have hb : Int.log 2 |x| < e + 1 := by
    rw [← Int.lt_zpow_iff_log_lt (by norm_num) hpos]
    simpa using h2
  omega

/-- A certificate for one rounding: with the binary exponent e of x and u the spacing at
that exponent, x rounds to n * u when n is closer than one half to x / u. -/
theorem roundBinary_eq (p : ℕ) (emin : ℤ) (x : ℚ) (e n : ℤ) (u : ℚ)
    (h1 : (2 : ℚ) ^ e ≤ |x|) (h2 : |x| < (2 : ℚ) ^ (e + 1))
    (hu : u = (2 : ℚ) ^ (max e emin - ((p : ℤ) - 1)))
    (hn : |x / u - n| < 1 / 2) : roundBinary p emin x = n * u := by
  have hulp : ulp p emin x = u := by
    unfold ulp
    rw [log_eq_of_binade x e h1 h2, hu]
  unfold roundBinary
  rw [hulp, roundNearestEven_eq _ n hn]

/-- The spacing is positive. -/
theorem ulp_pos (p : ℕ) (emin : ℤ) (x : ℚ) : 0 < ulp p emin x := by
  unfold ulp
  positivity

/-- Rounding does not leave the binade of x upwards: the rounded magnitude is at most the
next power of two. -/
theorem abs_roundBinary_le (p : ℕ) (emin : ℤ) (x : ℚ) :
    |roundBinary p emin x| ≤ (2 : ℚ) ^ (max (Int.log 2 |x|) emin + 1) := by
  have hu := ulp_pos p emin x
  have hx : |x| < (2 : ℚ) ^ (max (Int.log 2 |x|) emin + 1) := by
    have h := Int.lt_zpow_succ_log_self (b := 2) (by norm_num) |x|
    have hmono : ((2 : ℕ) : ℚ) ^ (Int.log 2 |x| + 1) ≤ (2 : ℚ) ^ (max (Int.log 2 |x|) emin + 1) := by
      have : Int.log 2 |x| + 1 ≤ max (Int.log 2 |x|) emin + 1 := by
        have := le_max_left (Int.log 2 |x|) emin
        omega
      have h2 := zpow_le_zpow_right₀ (by norm_num : (1 : ℚ) ≤ 2) this
      exact_mod_cast h2
    exact lt_of_lt_of_le h hmono
  have hsplit : (2 : ℚ) ^ (max (Int.log 2 |x|) emin + 1) = (2 : ℚ) ^ p * ulp p emin x := by
    unfold ulp
    rw [← zpow_natCast, ← zpow_add₀ (by norm_num : (2 : ℚ) ≠ 0)]
    congr 1
    ring
  have hq : |x / ulp p emin x| < (2 : ℚ) ^ p := by
    rw [abs_div, abs_of_pos hu, div_lt_iff₀ hu, ← hsplit]
    exact hx
  have hr := abs_roundNearestEven_sub_le (x / ulp p emin x)
  have hn : |(roundNearestEven (x / ulp p emin x) : ℚ)| ≤ (2 : ℚ) ^ p := by
    have h1 : |(roundNearestEven (x / ulp p emin x) : ℚ)| < (2 : ℚ) ^ p + 1 := by
      have := abs_sub_abs_le_abs_sub (roundNearestEven (x / ulp p emin x) : ℚ) (x / ulp p emin x)
      linarith
    have h2 : ((roundNearestEven (x / ulp p emin x)).natAbs : ℚ) < ((2 ^ p + 1 : ℕ) : ℚ) := by
      rw [Nat.cast_natAbs]
      push_cast
      exact h1
    have h3 : (roundNearestEven (x / ulp p emin x)).natAbs < 2 ^ p + 1 := by exact_mod_cast h2
    have h4 : (roundNearestEven (x / ulp p emin x)).natAbs ≤ 2 ^ p := by omega
    have h5 : ((roundNearestEven (x / ulp p emin x)).natAbs : ℚ) ≤ ((2 ^ p : ℕ) : ℚ) := by
      exact_mod_cast h4
    rw [Nat.cast_natAbs] at h5
    push_cast at h5
    exact h5
  unfold roundBinary
  rw [abs_mul, abs_of_pos hu, hsplit]
  exact mul_le_mul_of_nonneg_right hn hu.le


/-- A float is its own rounding and is smaller than 2 ^ 128 in magnitude. -/
theorem isFloat32_bound (x : ℚ) (h : isFloat32 x) : round32 x = x ∧ |x| < (2 : ℚ) ^ (128 : ℤ) := by
  unfold isFloat32 fl32 overflow at h
  split at h
  · exact absurd h (by simp)
  · rename_i hlt
    simp only [float.finite.injEq] at h
    rw [h] at hlt
    exact ⟨h, by simpa using lt_of_not_le hlt⟩

/-- The float product of a float with a constant of magnitude at most one half does not
overflow: it is the rounded exact product. -/
theorem fl32_mul_of_small (x c : ℚ) (hx : isFloat32 x) (hc : |c| ≤ 1 / 2) :
    fl32 (x * c) = float.finite (round32 (x * c)) := by
  have hb := (isFloat32_bound x hx).2
  have hxc : |x * c| < (2 : ℚ) ^ (127 : ℤ) := by
    rw [abs_mul]
    have h0 : |x| * |c| ≤ |x| * (1 / 2) := mul_le_mul_of_nonneg_left hc (abs_nonneg x)
    have h1 : (2 : ℚ) ^ (128 : ℤ) * (1 / 2) = (2 : ℚ) ^ (127 : ℤ) := by norm_num
    linarith
  have hlog : Int.log 2 |x * c| ≤ 126 := by
    by_cases h0 : x * c = 0
    · simp [h0]
    · have hpos : (0 : ℚ) < |x * c| := abs_pos.mpr h0
      have : Int.log 2 |x * c| < 127 := by
        rw [← Int.lt_zpow_iff_log_lt (by norm_num) hpos]
        simpa using hxc
      omega
  have hr := abs_roundBinary_le 24 (-126) (x * c)
  have hmax : max (Int.log 2 |x * c|) (-126) + 1 ≤ 127 := by
    have := max_le hlog (by norm_num : (-126 : ℤ) ≤ 126)
    omega
  have h2 := zpow_le_zpow_right₀ (by norm_num : (1 : ℚ) ≤ 2) hmax
  have h3 : |round32 (x * c)| < (2 : ℚ) ^ ((127 : ℤ) + 1) := by
    have h4 : (2 : ℚ) ^ (127 : ℤ) < (2 : ℚ) ^ ((127 : ℤ) + 1) := by norm_num
    unfold round32
    linarith
  unfold fl32 overflow
  rw [if_neg (not_le.mpr h3)]

/-- C1: in a state that is not connected every discrete operation returns false and
returns the state it was given: the command queue, the flight intent, the flags flying,
recording and currentView are unchanged, and so is the trace, hence no call reaches the
video manager. -/
theorem C1_discrete_op_not_connected (k : AFConstants) (env : Env) (op : DiscreteOp)
    (s : ARDrone) (h : s._connected = false) :
    (op.run k env s).1 = false ∧ (op.run k env s).2 = s := by
  cases op <;>
    simp [DiscreteOp.run, drone_takeOff, drone_land, drone_emergency, drone_flattrim,
      drone_flip, drone_calibmagneto, drone_pair, drone_unpair, drone_setConfiguration_float,
      drone_setConfiguration_string, drone_startRecordingOnUSB, drone_stopRecordingOnUSB,
      drone_changeView, drone_toggleView, drone_takePicture, drone_startRecording,
      drone_stopRecording, drone_toggleRecording, isConnected, h]

/-- Witness of C1: taking a picture on the disconnected controller. -/
theorem C1_discrete_op_not_connected_witness :
    disconnectedDrone._connected = false ∧
    (DiscreteOp.takePicture.run sampleConstants sampleEnv disconnectedDrone).1 = false ∧
    (DiscreteOp.takePicture.run sampleConstants sampleEnv disconnectedDrone).2
      = disconnectedDrone :=
  ⟨rfl, C1_discrete_op_not_connected sampleConstants sampleEnv DiscreteOp.takePicture
    disconnectedDrone rfl⟩

/-- Notifying a list of listeners appends one call per listener to the trace, in list
order, and changes nothing else. -/
theorem foldl_record (f : Nat → Call) (l : List Nat) (s : ARDrone) :
    l.foldl (fun s i => s.record (f i)) s = { s with trace := s.trace ++ l.map f } := by
  induction l generalizing s with
  | nil => simp
  | cons a l ih =>
    rw [List.foldl_cons, ih]
    simp [ARDrone.record]

/-- C2: with no controller configuration, one iteration of the update loop leaves the
controller-input step without effect, sends exactly one batch, namely the queue followed by
one derived command (HoverCommand when the four intent values are zero, else
AttitudeCommand with the intent), and leaves the queue empty.  The whole trace of the
iteration is given.  In particular the intent (0,0,0,0) sends the queue followed by
HoverCommand and the intent (1/2,0,0,0) sends the queue followed by
AttitudeCommand(1/2,0,0,0). -/
theorem C2_tick_sends_queue_and_intent (k : AFConstants) (env : TickEnv) (s : ARDrone)
    (h : s._controllerconfig = none) :
    processControllerInput k env s = some s ∧
    (∃ s1, runUpdateLoop_iteration k env s = some s1 ∧
      s1._commandqueue = [] ∧
      s1.trace = s.trace ++
        [Call.sleep_for 25, Call.io_service_poll, Call.nm_getNavdata] ++
        (if env.navdata.isSome then s._ndlisteners.map Call.navdataAvailable else []) ++
        [Call.cl_sendATCommands (s._commandqueue ++
          [if s._phi = 0 ∧ s._theta = 0 ∧ s._gaz = 0 ∧ s._yaw = 0 then ATCommand.HoverCommand
           else ATCommand.AttitudeCommand s._phi s._theta s._gaz s._yaw])] ++
        [Call.vm_getVideoFrame] ++
        (if env.frame_empty then [] else s._vlisteners.map Call.videoFrameAvailable)) ∧
    (s._phi = 0 ∧ s._theta = 0 ∧ s._gaz = 0 ∧ s._yaw = 0 →
      (processCommandQueue s)._commandqueue = [] ∧
      (processCommandQueue s).trace = s.trace ++
        [Call.cl_sendATCommands (s._commandqueue ++ [ATCommand.HoverCommand])]) ∧
    (s._phi = 1 / 2 ∧ s._theta = 0 ∧ s._gaz = 0 ∧ s._yaw = 0 →
      (processCommandQueue s)._commandqueue = [] ∧
      (processCommandQueue s).trace = s.trace ++
        [Call.cl_sendATCommands (s._commandqueue ++
          [ATCommand.AttitudeCommand (1 / 2) 0 0 0])]) := by
  refine ⟨by simp [processControllerInput, h], ?_, ?_, ?_⟩
  · have hcfg : ∀ (t : ARDrone), t._controllerconfig = none →
        processControllerInput k env t = some t := by
      intro t ht
      simp [processControllerInput, ht]
    unfold runUpdateLoop_iteration
    simp only [foldl_record]
    rw [hcfg _ (by split <;> simpa [ARDrone.record] using h)]
    cases hn : env.navdata <;> cases hfr : env.frame_empty <;>
      by_cases hz : s._phi = 0 ∧ s._theta = 0 ∧ s._gaz = 0 ∧ s._yaw = 0 <;>
      simp [processCommandQueue, ARDrone.record, ARDrone.push_back, hz]
  · intro hz
    simp [processCommandQueue, ARDrone.record, ARDrone.push_back, hz]
  · rintro ⟨h1, h2, h3, h4⟩
    simp [processCommandQueue, ARDrone.record, ARDrone.push_back, h1, h2, h3, h4]

/-- Witness of C2: the connected controller has no controller configuration; its intent is
zero, so the iteration sends the waiting FlatTrimCommand followed by HoverCommand. -/
theorem C2_tick_sends_queue_and_intent_witness :
    connectedDrone._controllerconfig = none ∧
    (processCommandQueue connectedDrone).trace =
      [Call.cl_sendATCommands [ATCommand.FlatTrimCommand, ATCommand.HoverCommand]] :=
  ⟨rfl, ((C2_tick_sends_queue_and_intent sampleConstants
    { ops := sampleEnv, navdata := none, frame_empty := true,
      Gamepad_deviceAtIndex := fun _ => none } connectedDrone rfl).2.2.1
    ⟨rfl, rfl, rfl, rfl⟩).2⟩

/-- C3: in a connected state connect() returns ALREADY_CONNECTED and returns the state it
was given; in particular the trace is unchanged, so nothing is initialised, sent, polled
or closed. -/
theorem C3_connect_already_connected (k : AFConstants) (env : ConnectEnv) (s : ARDrone)
    (h : s._connected = true) :
    connect k env s = (connection.ALREADY_CONNECTED, s) := by
  simp [connect, h]

/-- Witness of C3: connect() on the connected controller. -/
theorem C3_connect_already_connected_witness :
    connectedDrone._connected = true ∧
    connect sampleConstants connectEnvOk connectedDrone
      = (connection.ALREADY_CONNECTED, connectedDrone) :=
  ⟨rfl, C3_connect_already_connected sampleConstants connectEnvOk connectedDrone rfl⟩

/-- C4: from a state that is not connected and with collaborators that do not throw,
connect() returns CONNECTION_ESTABLISHED exactly when _nm.isConnected() answers true after
the single _nm.update(); then the video manager is initialised and isConnected() holds.
Otherwise it returns CONNECTION_FAILED, the transport and the navdata manager are closed,
the video manager is not touched and isConnected() does not hold. -/
theorem C4_connect_no_fault (k : AFConstants) (env : ConnectEnv) (s : ARDrone)
    (h : s._connected = false) (hf : env.noFault) :
    ((connect k env s).1 = connection.CONNECTION_ESTABLISHED ↔ env.nm_isConnected = true) ∧
    (env.nm_isConnected = true →
      (connect k env s).1 = connection.CONNECTION_ESTABLISHED ∧
      (connect k env s).2.trace = s.trace ++
        [Call.cl_init s._ip, Call.cl_setAppID, Call.sleep_for 250,
         Call.cl_sendATCommands connectBatch, Call.sleep_for 50, Call.nm_init s._ip,
         Call.sleep_for 100, Call.nm_update, Call.nm_isConnected,
         Call.vm_init s._ip, Call.vm_update] ∧
      isConnected (connect k env s).2 = true) ∧
    (env.nm_isConnected = false →
      (connect k env s).1 = connection.CONNECTION_FAILED ∧
      (connect k env s).2.trace = s.trace ++
        [Call.cl_init s._ip, Call.cl_setAppID, Call.sleep_for 250,
         Call.cl_sendATCommands connectBatch, Call.sleep_for 50, Call.nm_init s._ip,
         Call.sleep_for 100, Call.nm_update, Call.nm_isConnected,
         Call.cl_close, Call.nm_close] ∧
      isConnected (connect k env s).2 = false) := by
  obtain ⟨h1, h2, h3, h4, h5, h6, h7, h8, h9, -⟩ := hf
  cases hc : env.nm_isConnected <;>
    simp [connect, connect_try, tryCall, drone_setConfiguration_string, isConnected,
      ARDrone.record, h, h1, h2, h3, h4, h5, h6, h7, h8, h9, hc]

/-- Witness of C4: the disconnected controller, collaborators that never throw. -/
theorem C4_connect_no_fault_witness :
    disconnectedDrone._connected = false ∧ connectEnvOk.noFault ∧
    (connect sampleConstants connectEnvOk disconnectedDrone).1
      = connection.CONNECTION_ESTABLISHED ∧
    isConnected (connect sampleConstants connectEnvOk disconnectedDrone).2 = true :=
  have hf : connectEnvOk.noFault := ⟨rfl, rfl, rfl, rfl, rfl, rfl, rfl, rfl, rfl, rfl⟩
  have h := (C4_connect_no_fault sampleConstants connectEnvOk disconnectedDrone rfl hf).2.1 rfl
  ⟨rfl, hf, h.1, h.2.2⟩

/-- The places where the try block of connect() can be left by a system_error: a call
that throws, after the calls before it have returned, makes the block end with the error
code of that call.  The calls after _nm.isConnected() depend on its answer. -/
theorem connect_try_fault_sites (k : AFConstants) (env : ConnectEnv) (s : ARDrone)
    (code : Int) (h : s._connected = false) :
    (env.cl_init = some code → (connect_try k env s).1 = Except.error code) ∧
    (env.cl_init = none → env.cl_setAppID = some code →
      (connect_try k env s).1 = Except.error code) ∧
    (env.cl_init = none → env.cl_setAppID = none → env.cl_sendATCommands = some code →
      (connect_try k env s).1 = Except.error code) ∧
    (env.cl_init = none → env.cl_setAppID = none → env.cl_sendATCommands = none →
      env.nm_init = some code → (connect_try k env s).1 = Except.error code) ∧
    (env.cl_init = none → env.cl_setAppID = none → env.cl_sendATCommands = none →
      env.nm_init = none → env.nm_update = some code →
      (connect_try k env s).1 = Except.error code) ∧
    (env.cl_init = none → env.cl_setAppID = none → env.cl_sendATCommands = none →
      env.nm_init = none → env.nm_update = none → env.nm_isConnected = true →
      env.vm_init = some code → (connect_try k env s).1 = Except.error code) ∧
    (env.cl_init = none → env.cl_setAppID = none → env.cl_sendATCommands = none →
      env.nm_init = none → env.nm_update = none → env.nm_isConnected = true →
      env.vm_init = none → env.vm_update = some code →
      (connect_try k env s).1 = Except.error code) ∧
    (env.cl_init = none → env.cl_setAppID = none → env.cl_sendATCommands = none →
      env.nm_init = none → env.nm_update = none → env.nm_isConnected = false →
      env.cl_close = some code → (connect_try k env s).1 = Except.error code) ∧
    (env.cl_init = none → env.cl_setAppID = none → env.cl_sendATCommands = none →
      env.nm_init = none → env.nm_update = none → env.nm_isConnected = false →
      env.cl_close = none → env.nm_close = some code →
      (connect_try k env s).1 = Except.error code) := by
  refine ⟨?_, ?_, ?_, ?_, ?_, ?_, ?_, ?_, ?_⟩ <;> intros <;>
    simp [connect_try, tryCall, drone_setConfiguration_string, isConnected, ARDrone.record, *]

/-- C5, as stated, fails: when _cl.init throws a system_error with error code 1 on the
disconnected controller, connect() returns EXCEPTION_OCCURRED but never calls
_cl.close(). -/
theorem C5_counterexample_error_code_one :
    disconnectedDrone._connected = false ∧
    (connect_try sampleConstants connectEnvInitThrows1 disconnectedDrone).1 = Except.error 1 ∧
    (connect sampleConstants connectEnvInitThrows1 disconnectedDrone).1
      = connection.EXCEPTION_OCCURRED ∧
    (connect sampleConstants connectEnvInitThrows1 disconnectedDrone).2.trace
      = [Call.cl_init "192.168.1.1"] ∧
    Call.cl_close ∉ (connect sampleConstants connectEnvInitThrows1 disconnectedDrone).2.trace := by
  simp [connect, connect_try, connect_catch, tryCall, ARDrone.record, disconnectedDrone,
    connectEnvInitThrows1, connectEnvOk]

/-- C5, amended: from a state that is not connected, when a call inside the try block of
connect() throws a system_error with any error code, connect() returns EXCEPTION_OCCURRED
(the error does not leave the call); when the error code is not 1 the next and last call
is _cl.close(), whether or not that close throws; when the error code is 1 no further
call is made. -/
theorem C5_connect_fault (k : AFConstants) (env : ConnectEnv) (s : ARDrone) (code : Int)
    (h : s._connected = false)
    (hfault : (connect_try k env s).1 = Except.error code) :
    (connect k env s).1 = connection.EXCEPTION_OCCURRED ∧
    (code ≠ 1 → (connect k env s).2 = (connect_try k env s).2.record Call.cl_close) ∧
    (code = 1 → (connect k env s).2 = (connect_try k env s).2) := by
  rcases hr : connect_try k env s with ⟨r, s1⟩
  rw [hr] at hfault
  simp only at hfault
  subst hfault
  by_cases hc : code = 1
  · simp [connect, connect_catch, h, hr, hc]
  · cases hh : env.cl_close_handler <;> simp [connect, connect_catch, h, hr, hc, hh]

/-- Witness of C5: _cl.init throws a system_error with error code 2, and the transport
is closed. -/
theorem C5_connect_fault_witness :
    disconnectedDrone._connected = false ∧
    (connect_try sampleConstants connectEnvInitThrows2 disconnectedDrone).1 = Except.error 2 ∧
    (connect sampleConstants connectEnvInitThrows2 disconnectedDrone).1
      = connection.EXCEPTION_OCCURRED ∧
    (connect sampleConstants connectEnvInitThrows2 disconnectedDrone).2
      = (connect_try sampleConstants connectEnvInitThrows2 disconnectedDrone).2.record
          Call.cl_close :=
  have h := C5_connect_fault sampleConstants connectEnvInitThrows2 disconnectedDrone 2 rfl rfl
  ⟨rfl, rfl, h.1, h.2.1 (by decide)⟩

/-- C6 (evaluation at the failing input): connect() on the disconnected controller with
collaborators that never throw returns CONNECTION_ESTABLISHED, yet the command queue is
still empty, the only batch sent is the configuration batch, nothing happens between the
50 ms pause and _nm.init, and the configuration batch holds no video codec command: the
call drone_setConfiguration(VIDEO_CODEC, MP4_360P) made while _connected is still false
returns false without queueing anything. -/
theorem C6_connect_skips_video_codec :
    (connect sampleConstants connectEnvOk disconnectedDrone).1
      = connection.CONNECTION_ESTABLISHED ∧
    (connect sampleConstants connectEnvOk disconnectedDrone).2._commandqueue = [] ∧
    (connect sampleConstants connectEnvOk disconnectedDrone).2.trace =
      [Call.cl_init "192.168.1.1", Call.cl_setAppID, Call.sleep_for 250,
       Call.cl_sendATCommands connectBatch, Call.sleep_for 50, Call.nm_init "192.168.1.1",
       Call.sleep_for 100, Call.nm_update, Call.nm_isConnected,
       Call.vm_init "192.168.1.1", Call.vm_update] ∧
    ATCommand.ConfigCommand sampleConstants.VIDEO_CODEC sampleConstants.MP4_360P
      ∉ connectBatch ∧
    drone_setConfiguration_string sampleConstants.VIDEO_CODEC sampleConstants.MP4_360P
      disconnectedDrone = (false, disconnectedDrone) := by
  simp [connect, connect_try, tryCall, drone_setConfiguration_string, isConnected,
    ARDrone.record, disconnectedDrone, connectEnvOk, connectBatch, sampleConstants]

/-- C7: on a connected controller takeOff() returns true and isFlying() becomes true; the
land() that follows returns true and isFlying() becomes false; together the two calls
append TakeOffCommand and then LandCommand at the end of the queue. -/
theorem C7_takeOff_then_land (s : ARDrone) (h : s._connected = true) :
    (drone_takeOff s).1 = true ∧
    drone_isFlying (drone_takeOff s).2 = true ∧
    (drone_land (drone_takeOff s).2).1 = true ∧
    drone_isFlying (drone_land (drone_takeOff s).2).2 = false ∧
    (drone_land (drone_takeOff s).2).2._commandqueue =
      s._commandqueue ++ [ATCommand.TakeOffCommand, ATCommand.LandCommand] := by
  simp [drone_takeOff, drone_land, drone_isFlying, isConnected, ARDrone.push_back, h]

/-- Witness of C7: the connected controller with FlatTrimCommand waiting. -/
theorem C7_takeOff_then_land_witness :
    connectedDrone._connected = true ∧
    drone_isFlying (drone_takeOff connectedDrone).2 = true ∧
    drone_isFlying (drone_land (drone_takeOff connectedDrone).2).2 = false ∧
    (drone_land (drone_takeOff connectedDrone).2).2._commandqueue =
      connectedDrone._commandqueue ++ [ATCommand.TakeOffCommand, ATCommand.LandCommand] :=
  have h := C7_takeOff_then_land connectedDrone rfl
  ⟨rfl, h.2.1, h.2.2.2.1, h.2.2.2.2⟩

/-- On a connected controller drone_toggleView stays connected, returns true, moves the
view from BOTTOM to FRONT and from anything else to BOTTOM, and appends ConfigIDSCommand
and ZapCommand(front) where front tells whether the new view is FRONT. -/
theorem drone_toggleView_connected (k : AFConstants) (t : ARDrone) (h : t._connected = true) :
    (drone_toggleView k t).1 = true ∧
    (drone_toggleView k t).2._connected = true ∧
    (drone_toggleView k t).2._currentView
      = (if t._currentView = k.BOTTOM then k.FRONT else k.BOTTOM) ∧
    (drone_toggleView k t).2._commandqueue = t._commandqueue ++
      [ATCommand.ConfigIDSCommand,
       ATCommand.ZapCommand (decide ((drone_toggleView k t).2._currentView = k.FRONT))] := by
  by_cases hv : t._currentView = k.BOTTOM <;>
    simp [drone_toggleView, drone_changeView, isConnected, ARDrone.push_back, h, hv]

/-- One more toggle is applied after the earlier ones. -/
theorem toggleViewTimes_succ (k : AFConstants) (n : Nat) (s : ARDrone) :
    toggleViewTimes k (n + 1) s = (drone_toggleView k (toggleViewTimes k n s)).2 := by
  simp [toggleViewTimes, Function.iterate_succ_apply']

/-- Starting from a connected controller whose view is FRONT, after n toggles the
controller is still connected and shows BOTTOM when n is odd and FRONT when n is even. -/
theorem toggleViewTimes_view (k : AFConstants) (hne : k.FRONT ≠ k.BOTTOM) (s : ARDrone)
    (h : s._connected = true) (hv : s._currentView = k.FRONT) (n : Nat) :
    (toggleViewTimes k n s)._connected = true ∧
    (toggleViewTimes k n s)._currentView = (if n % 2 = 1 then k.BOTTOM else k.FRONT) := by
  induction n with
  | zero => simp [toggleViewTimes, h, hv]
  | succ n ih =>
    obtain ⟨hc, hview⟩ := ih
    have ht := drone_toggleView_connected k (toggleViewTimes k n s) hc
    rw [toggleViewTimes_succ]
    refine ⟨ht.2.1, ?_⟩
    rw [ht.2.2.1, hview]
    rcases Nat.mod_two_eq_zero_or_one n with h0 | h1
    · have h2 : (n + 1) % 2 = 1 := by omega
      simp [h0, h2, hne]
    · have h2 : (n + 1) % 2 = 0 := by omega
      simp [h1, h2]

/-- C8: on a connected controller, with FRONT and BOTTOM two different view constants,
changeView(FRONT) returns true and makes the current view FRONT; after n further calls of
toggleView() the current view is BOTTOM when n is odd and FRONT when n is even; and each
further toggle returns true and appends ConfigIDSCommand and ZapCommand(front), with front
true exactly when the view after that toggle is FRONT. -/
theorem C8_toggleView_alternates (k : AFConstants) (s : ARDrone) (h : s._connected = true)
    (hne : k.FRONT ≠ k.BOTTOM) :
    (drone_changeView k k.FRONT s).1 = true ∧
    (drone_changeView k k.FRONT s).2._currentView = k.FRONT ∧
    ∀ n : Nat,
      (toggleViewTimes k n (drone_changeView k k.FRONT s).2)._currentView
        = (if n % 2 = 1 then k.BOTTOM else k.FRONT) ∧
      (drone_toggleView k (toggleViewTimes k n (drone_changeView k k.FRONT s).2)).1 = true ∧
      (toggleViewTimes k (n + 1) (drone_changeView k k.FRONT s).2)._commandqueue =
        (toggleViewTimes k n (drone_changeView k k.FRONT s).2)._commandqueue ++
          [ATCommand.ConfigIDSCommand,
           ATCommand.ZapCommand (decide
             ((toggleViewTimes k (n + 1) (drone_changeView k k.FRONT s).2)._currentView
               = k.FRONT))] := by
  have hc : (drone_changeView k k.FRONT s).2._connected = true := by
    simp [drone_changeView, isConnected, ARDrone.push_back, h]
  have hv : (drone_changeView k k.FRONT s).2._currentView = k.FRONT := by
    simp [drone_changeView, isConnected, h]
  refine ⟨by simp [drone_changeView, isConnected, h], hv, ?_⟩
  intro n
  have hn := toggleViewTimes_view k hne _ hc hv n
  have ht := drone_toggleView_connected k _ hn.1
  refine ⟨hn.2, ht.1, ?_⟩
  rw [toggleViewTimes_succ]
  exact ht.2.2.2

/-- Witness of C8: the connected controller and the sample constants (FRONT is 0, BOTTOM
is 1); after three toggles the view is BOTTOM. -/
theorem C8_toggleView_alternates_witness :
    connectedDrone._connected = true ∧ sampleConstants.FRONT ≠ sampleConstants.BOTTOM ∧
    (toggleViewTimes sampleConstants 3
      (drone_changeView sampleConstants sampleConstants.FRONT connectedDrone).2)._currentView
      = sampleConstants.BOTTOM :=
  ⟨rfl, by decide,
    ((C8_toggleView_alternates sampleConstants connectedDrone rfl (by decide)).2.2 3).1⟩

/-- A certificate for one rounding to float: as roundBinary_eq, with the result below
2 ^ 128 in magnitude. -/
theorem fl32_eq (x : ℚ) (e n : ℤ) (u r : ℚ)
    (h1 : (2 : ℚ) ^ e ≤ |x|) (h2 : |x| < (2 : ℚ) ^ (e + 1))
    (hu : u = (2 : ℚ) ^ (max e (-126) - (((24 : ℕ) : ℤ) - 1)))
    (hn : |x / u - n| < 1 / 2) (hr : r = n * u) (hfin : |r| < (2 : ℚ) ^ ((127 : ℤ) + 1)) :
    fl32 x = float.finite r := by
  unfold fl32 overflow round32
  rw [roundBinary_eq 24 (-126) x e n u h1 h2 hu hn, ← hr, if_neg (not_le.mpr hfin)]

/-- A certificate for one rounding to double: as roundBinary_eq, with the result below
2 ^ 1024 in magnitude. -/
theorem fl64_eq (x : ℚ) (e n : ℤ) (u r : ℚ)
    (h1 : (2 : ℚ) ^ e ≤ |x|) (h2 : |x| < (2 : ℚ) ^ (e + 1))
    (hu : u = (2 : ℚ) ^ (max e (-1022) - (((53 : ℕ) : ℤ) - 1)))
    (hn : |x / u - n| < 1 / 2) (hr : r = n * u) (hfin : |r| < (2 : ℚ) ^ ((1023 : ℤ) + 1)) :
    fl64 x = float.finite r := by
  unfold fl64 overflow round64
  rw [roundBinary_eq 53 (-1022) x e n u h1 h2 hu hn, ← hr, if_neg (not_le.mpr hfin)]

/-- The float literals of the source: 0.1f, 0.3f and 0.5f are the floats that 1/10, 3/10 and
1/2 round to. -/
theorem float_literals :
    fl32 (1 / 10) = float.finite float_0_1 ∧ fl32 (3 / 10) = float.finite float_0_3 ∧
    fl32 (1 / 2) = float.finite float_0_5 := by
  refine ⟨?_, ?_, ?_⟩
  · exact fl32_eq (1 / 10) (-4) 13421773 (1 / 2 ^ 27) float_0_1 (by norm_num [abs_of_pos])
      (by norm_num [abs_of_pos]) (by norm_num) (by norm_num [abs_lt])
      (by norm_num [float_0_1]) (by norm_num [float_0_1, abs_of_pos])
  · exact fl32_eq (3 / 10) (-2) 10066330 (1 / 2 ^ 25) float_0_3 (by norm_num [abs_of_pos])
      (by norm_num [abs_of_pos]) (by norm_num) (by norm_num [abs_lt])
      (by norm_num [float_0_3]) (by norm_num [float_0_3, abs_of_pos])
  · exact fl32_eq (1 / 2) (-1) 8388608 (1 / 2 ^ 24) float_0_5 (by norm_num [abs_of_pos])
      (by norm_num [abs_of_pos]) (by norm_num) (by norm_num [abs_lt])
      (by norm_num [float_0_5]) (by norm_num [float_0_5, abs_of_pos])

/-- Both spellings of the macro M_PI, the one of math.h and the fallback one of ardrone.cpp,
round to the same double. -/
theorem M_PI_of_literals :
    fl64 (314159265358979323846 / 10 ^ 20) = float.finite M_PI ∧
    fl64 (3141592653589793238462643383279502884197169399375105820974944592307816406 / 10 ^ 72)
      = float.finite M_PI := by
  refine ⟨?_, ?_⟩
  · exact fl64_eq _ 1 7074237752028440 (1 / 2 ^ 51) M_PI (by norm_num [abs_of_pos])
      (by norm_num [abs_of_pos]) (by norm_num) (by norm_num [abs_lt])
      (by norm_num [M_PI]) (by norm_num [M_PI, abs_of_pos])
  · exact fl64_eq _ 1 7074237752028440 (1 / 2 ^ 51) M_PI (by norm_num [abs_of_pos])
      (by norm_num [abs_of_pos]) (by norm_num) (by norm_num [abs_lt])
      (by norm_num [M_PI]) (by norm_num [M_PI, abs_of_pos])

/-- C10 (evaluation at the failing input): drone_getPosition returns the sentinel (-1,-1)
only when the controller is not connected; when it is connected it returns the local p,
which was never assigned.  On the connected controller, with p holding (0,0), the result
is (0,0) and not the sentinel. -/
theorem C10_getPosition_connected_returns_local :
    (∀ (p : position) (s : ARDrone),
      drone_getPosition p s = if s._connected = true then p else { x := -1, y := -1 }) ∧
    connectedDrone._connected = true ∧
    drone_getPosition { x := 0, y := 0 } connectedDrone = { x := 0, y := 0 } ∧
    drone_getPosition { x := 0, y := 0 } connectedDrone ≠ { x := -1, y := -1 } := by
  refine ⟨?_, rfl, ?_, ?_⟩
  · intro p s
    cases hc : s._connected <;> simp [drone_getPosition, isConnected, hc]
  · simp [drone_getPosition, isConnected, connectedDrone]
  · simp [drone_getPosition, isConnected, connectedDrone]

/-- C11: in a state that is not connected, whatever navdata record and flags it holds,
getOrientation, getLinearVelocity and getAcceleration return a record whose fields are all
-1, getAltitude and getBatteryStatus return -1, and isFlying and isRecording return false.
The getters are functions of the state only, so they change nothing, and the result does
not depend on the navdata pointer, which is not read. -/
theorem C11_getters_not_connected (s : ARDrone) (h : s._connected = false) :
    drone_getOrientation s = some { yaw := -1, pitch := -1, roll := -1 } ∧
    drone_getLinearVelocity s = some { vx := -1, vy := -1, vz := -1 } ∧
    drone_getAcceleration s = some { ax := -1, ay := -1, az := -1 } ∧
    drone_getAltitude s = some (-1) ∧
    drone_getBatteryStatus s = some (-1) ∧
    drone_isFlying s = false ∧
    drone_isRecording s = false ∧
    (∀ nd : Option Navdata,
      drone_getOrientation { s with _nd := nd } = drone_getOrientation s ∧
      drone_getLinearVelocity { s with _nd := nd } = drone_getLinearVelocity s ∧
      drone_getAcceleration { s with _nd := nd } = drone_getAcceleration s ∧
      drone_getAltitude { s with _nd := nd } = drone_getAltitude s ∧
      drone_getBatteryStatus { s with _nd := nd } = drone_getBatteryStatus s) := by
  simp [drone_getOrientation, drone_getLinearVelocity, drone_getAcceleration,
    drone_getAltitude, drone_getBatteryStatus, drone_isFlying, drone_isRecording,
    isConnected, h]

/-- Witness of C11: a controller that is not connected and holds a navdata record with
altitude 700 and the flags flying and recording set. -/
theorem C11_getters_not_connected_witness :
    disconnectedDroneWithNavdata._connected = false ∧
    drone_getAltitude disconnectedDroneWithNavdata = some (-1) ∧
    drone_isFlying disconnectedDroneWithNavdata = false :=
  have h := C11_getters_not_connected disconnectedDroneWithNavdata rfl
  ⟨rfl, h.2.2.2.1, h.2.2.2.2.2.1⟩

/-- The try block of connect() assigns neither the navdata pointer nor the worker. -/
theorem connect_try_frame (k : AFConstants) (env : ConnectEnv) (s : ARDrone)
    (h : s._connected = false) :
    (connect_try k env s).2._nd = s._nd ∧ (connect_try k env s).2._updater = s._updater := by
  simp only [connect_try, tryCall, drone_setConfiguration_string, isConnected, ARDrone.record,
    h, Bool.not_false, if_true]
  repeat' split
  all_goals simp

/-- ARDrone::connect assigns neither the navdata pointer nor the worker. -/
theorem connect_frame (k : AFConstants) (env : ConnectEnv) (s : ARDrone) :
    (connect k env s).2._nd = s._nd ∧ (connect k env s).2._updater = s._updater := by
  cases h : s._connected
  · have hf := connect_try_frame k env s h
    rcases hr : connect_try k env s with ⟨r, s1⟩
    rw [hr] at hf
    simp only at hf
    cases r with
    | ok result => simp [connect, h, hr, hf]
    | error code =>
      simp only [connect, h, hr, connect_catch]
      repeat' split
      all_goals simp [ARDrone.record, hf]
  · simp [connect, h]

/-- C12 (evaluation at the failing input): connect() never assigns the navdata pointer;
on the controller that has not run an iteration of the update loop, connect() returns
CONNECTION_ESTABLISHED and isConnected() holds while the navdata pointer still points to
nothing, so each of the five getters reads through it with no record behind it. -/
theorem C12_getters_right_after_connect :
    (∀ (k : AFConstants) (env : ConnectEnv) (s : ARDrone), (connect k env s).2._nd = s._nd) ∧
    (connect sampleConstants connectEnvOk disconnectedDrone).1
      = connection.CONNECTION_ESTABLISHED ∧
    isConnected (connect sampleConstants connectEnvOk disconnectedDrone).2 = true ∧
    (connect sampleConstants connectEnvOk disconnectedDrone).2._nd = none ∧
    drone_getOrientation (connect sampleConstants connectEnvOk disconnectedDrone).2 = none ∧
    drone_getLinearVelocity (connect sampleConstants connectEnvOk disconnectedDrone).2 = none ∧
    drone_getAltitude (connect sampleConstants connectEnvOk disconnectedDrone).2 = none ∧
    drone_getAcceleration (connect sampleConstants connectEnvOk disconnectedDrone).2 = none ∧
    drone_getBatteryStatus (connect sampleConstants connectEnvOk disconnectedDrone).2
      = none := by
  refine ⟨fun k env s => (connect_frame k env s).1, ?_⟩
  simp [connect, connect_try, tryCall, drone_setConfiguration_string, isConnected,
    ARDrone.record, disconnectedDrone, connectEnvOk, drone_getOrientation,
    drone_getLinearVelocity, drone_getAltitude, drone_getAcceleration, drone_getBatteryStatus]

/-- Every discrete operation keeps the connection flag and the worker, and puts no
AttitudeCommand into the queue. -/
theorem DiscreteOp.run_keeps (k : AFConstants) (env : Env) (op : DiscreteOp) (s : ARDrone) :
    Keeps s (op.run k env s).2 := by
  unfold Keeps
  cases op <;> cases h : s._connected <;>
    simp only [DiscreteOp.run, drone_takeOff, drone_land, drone_emergency, drone_flattrim,
      drone_flip, drone_calibmagneto, drone_pair, drone_unpair, drone_setConfiguration_float,
      drone_setConfiguration_string, drone_startRecordingOnUSB, drone_stopRecordingOnUSB,
      drone_changeView, drone_toggleView, drone_takePicture, drone_startRecording,
      drone_stopRecording, drone_toggleRecording, isConnected, ARDrone.push_back,
      ARDrone.record, h, Bool.not_false, Bool.not_true, if_true, if_false] <;>
    (repeat' split) <;>
    simp_all [ATCommand.isAttitude, List.filter_cons]

/-- Keeps is reflexive. -/
theorem Keeps.refl (s : ARDrone) : Keeps s s :=
  ⟨rfl, rfl, rfl⟩

/-- Keeps is transitive. -/
theorem Keeps.trans {s s1 s2 : ARDrone} (h1 : Keeps s s1) (h2 : Keeps s1 s2) : Keeps s s2 :=
  ⟨h2.1.trans h1.1, h2.2.1.trans h1.2.1, h2.2.2.trans h1.2.2⟩

/-- A trigger either leaves the state as it is or runs its action once. -/
theorem trigger_keeps (device : Gamepad_device) (g i : Int) (action : ARDrone → ARDrone)
    (hact : ∀ s, Keeps s (action s)) (s s1 : ARDrone)
    (h : trigger device g i action s = some s1) : Keeps s s1 := by
  unfold trigger at h
  split at h
  · split at h
    · exact absurd h (by simp)
    · rename_i pressed _
      cases pressed
      · simp at h
        subst h
        exact Keeps.refl s
      · simp at h
        subst h
        exact hact s
  · simp at h
    subst h
    exact Keeps.refl s

/-- The trigger reads keep the connection flag and the worker and queue no AttitudeCommand;
when the take-off index is not negative, the flag slow is the state of the slow button. -/
theorem processControllerInput_triggers_keeps (k : AFConstants) (env : TickEnv)
    (cfg : ControllerConfiguration) (device : Gamepad_device) (s s1 : ARDrone) (slow : Bool)
    (h : processControllerInput_triggers k env cfg device s = some (s1, slow)) :
    Keeps s s1 ∧ (cfg.takeoff ≥ 0 → device.button cfg.slow = some slow) ∧
    (¬ cfg.takeoff ≥ 0 → slow = false) := by
  unfold processControllerInput_triggers at h
  simp only [Option.bind_eq_bind, Option.bind_eq_some] at h
  obtain ⟨a1, h1, a2, h2, a3, h3, a4, h4, a5, h5, a6, h6, hrest⟩ := h
  have hb : (if cfg.takeoff ≥ 0 then device.button cfg.slow else some false) = some slow ∧
      a6 = s1 := by
    by_cases hto : cfg.takeoff ≥ 0
    · simp only [hto, if_true] at hrest ⊢
      simp only [Option.bind_eq_some, Option.some.injEq, Prod.mk.injEq] at hrest
      obtain ⟨b, hb, rfl, rfl⟩ := hrest
      exact ⟨hb, rfl⟩
    · simp only [hto, if_false] at hrest ⊢
      simp only [Option.bind_eq_some, Option.some.injEq, Prod.mk.injEq] at hrest
      obtain ⟨b, hb, rfl, rfl⟩ := hrest
      exact ⟨congrArg some hb, rfl⟩
  obtain ⟨hb, rfl⟩ := hb
  have k1 := trigger_keeps device _ _ _ (fun s => DiscreteOp.run_keeps k env.ops
    DiscreteOp.takeOff s) s a1 h1
  have k2 := trigger_keeps device _ _ _ (fun s => DiscreteOp.run_keeps k env.ops
    DiscreteOp.land s) a1 a2 h2
  have k3 := trigger_keeps device _ _ _ (fun s => DiscreteOp.run_keeps k env.ops
    DiscreteOp.toggleView s) a2 a3 h3
  have k4 := trigger_keeps device _ _ _ (fun s => DiscreteOp.run_keeps k env.ops
    DiscreteOp.takePicture s) a3 a4 h4
  have k5 := trigger_keeps device _ _ _ (fun s => DiscreteOp.run_keeps k env.ops
    DiscreteOp.toggleRecording s) a4 a5 h5
  have k6 := trigger_keeps device _ _ _ (fun s => DiscreteOp.run_keeps k env.ops
    (DiscreteOp.flip k.LEFT) s) a5 a6 h6
  refine ⟨((((k1.trans k2).trans k3).trans k4).trans k5).trans k6, ?_, ?_⟩
  · intro hto
    simpa [hto] using hb
  · intro hto
    simp [hto] at hb
    exact hb

/-- The last part of the controller input keeps the connection flag, the worker and the
queue. -/
theorem processControllerInput_move_keeps (slow : Bool) (phi theta gaz yaw : ℚ) (s : ARDrone) :
    Keeps s (processControllerInput_move slow phi theta gaz yaw s) := by
  unfold Keeps processControllerInput_move drone_hover drone_move
  simp only []
  repeat' split
  all_goals simp

/-- ARDrone::processControllerInput keeps the connection flag and the worker and queues no
AttitudeCommand. -/
theorem processControllerInput_keeps (k : AFConstants) (env : TickEnv) (s s1 : ARDrone)
    (h : processControllerInput k env s = some s1) : Keeps s s1 := by
  unfold processControllerInput at h
  cases hcfg : s._controllerconfig with
  | none =>
    simp only [hcfg, Option.some.injEq] at h
    subst h
    exact Keeps.refl s
  | some cfg =>
    cases hdev : env.Gamepad_deviceAtIndex cfg.deviceID with
    | none => simp [hcfg, hdev] at h
    | some device =>
      cases ht : processControllerInput_triggers k env cfg device s with
      | none => simp [hcfg, hdev, ht] at h
      | some r =>
        obtain ⟨a, slow⟩ := r
        cases ha : processControllerInput_axes cfg device with
        | none => simp [hcfg, hdev, ht, ha] at h
        | some v =>
          obtain ⟨phi, theta, gaz, yaw⟩ := v
          simp only [hcfg, hdev, ht, ha, Option.some.injEq] at h
          subst h
          exact (processControllerInput_triggers_keeps k env cfg device s a slow ht).1.trans
            (processControllerInput_move_keeps slow phi theta gaz yaw a)

/-- Sending the queue keeps the connection flag and the worker. -/
theorem processCommandQueue_frame (s : ARDrone) :
    (processCommandQueue s)._connected = s._connected ∧
    (processCommandQueue s)._updater = s._updater := by
  unfold processCommandQueue
  simp only []
  split <;> simp [ARDrone.record, ARDrone.push_back]

/-- One iteration of the update loop keeps the connection flag and the worker. -/
theorem runUpdateLoop_iteration_frame (k : AFConstants) (env : TickEnv) (s s1 : ARDrone)
    (h : runUpdateLoop_iteration k env s = some s1) :
    s1._connected = s._connected ∧ s1._updater = s._updater := by
  unfold runUpdateLoop_iteration at h
  simp only [foldl_record] at h
  split at h
  · simp at h
  · rename_i s2 hp
    have hk := processControllerInput_keeps k env _ s2 hp
    have h2 : s2._connected = s._connected ∧ s2._updater = s._updater := by
      refine ⟨hk.1.trans ?_, hk.2.1.trans ?_⟩ <;> split <;> simp [ARDrone.record]
    have h3 := processCommandQueue_frame s2
    split at h <;> simp only [Option.some.injEq] at h <;> subst h <;>
      simp [ARDrone.record, h3, h2]

/-- In every reachable state the worker exists only while the controller is connected. -/
theorem reachable_worker_connected (k : AFConstants) (s : ARDrone) (h : Reachable k s) :
    s._updater = true → s._connected = true := by
  induction h with
  | constructed s hs =>
    intro hu
    rw [hs.2] at hu
    exact absurd hu (by simp)
  | connect env s _ ih =>
    intro hu
    rw [(connect_frame k env s).2] at hu
    have hc := ih hu
    simp [connect, hc]
  | startUpdateLoop s s1 _ hstart ih =>
    intro hu
    unfold startUpdateLoop at hstart
    split at hstart
    · split at hstart
      · rename_i hc
        simp only [Except.ok.injEq] at hstart
        subst hstart
        exact hc
      · simp at hstart
    · simp only [Except.ok.injEq] at hstart
      subst hstart
      exact ih hu
  | stopUpdateLoop s _ _ =>
    intro hu
    exfalso
    revert hu
    unfold stopUpdateLoop
    simp only []
    split <;> simp_all [ARDrone.record]
  | discrete env op s _ ih =>
    intro hu
    have hk := DiscreteOp.run_keeps k env op s
    rw [hk.1]
    exact ih (hk.2.1 ▸ hu)
  | hover s _ ih =>
    intro hu
    have hk : (drone_hover s).2._connected = s._connected ∧
        (drone_hover s).2._updater = s._updater := by
      unfold drone_hover
      split <;> simp
    rw [hk.1]
    exact ih (hk.2 ▸ hu)
  | move phi theta gaz yaw s _ ih =>
    intro hu
    have hk : (drone_move phi theta gaz yaw s).2._connected = s._connected ∧
        (drone_move phi theta gaz yaw s).2._updater = s._updater := by
      unfold drone_move
      split <;> simp
    rw [hk.1]
    exact ih (hk.2 ▸ hu)
  | setControllerConfiguration config s _ ih =>
    intro hu
    exact ih hu
  | iteration env s s1 _ _ hit ih =>
    intro hu
    have hk := runUpdateLoop_iteration_frame k env s s1 hit
    rw [hk.1]
    exact ih (hk.2 ▸ hu)

/-- C13: in every reachable state, startUpdateLoop() throws NotConnectedException when the
controller is not connected (nothing is assigned before the throw, so the state is as it
was); when the controller is connected and has no worker it clears the stop flag and
creates the worker, changing nothing else; when a worker exists it changes nothing.  The
first part rests on the invariant, also proved, that a worker exists only while the
controller is connected. -/
theorem C13_startUpdateLoop_reachable (k : AFConstants) (s : ARDrone) (h : Reachable k s) :
    (s._updater = true → s._connected = true) ∧
    (s._connected = false → startUpdateLoop s = Except.error NotConnectedException.mk) ∧
    (s._connected = true → s._updater = false →
      startUpdateLoop s = Except.ok { s with _stop_flag := false, _updater := true }) ∧
    (s._updater = true → startUpdateLoop s = Except.ok s) := by
  have hinv := reachable_worker_connected k s h
  refine ⟨hinv, ?_, ?_, ?_⟩
  · intro hc
    have hu : s._updater = false := by
      cases hu : s._updater
      · rfl
      · rw [hinv hu] at hc
        exact absurd hc (by simp)
    simp [startUpdateLoop, hc, hu]
  · intro hc hu
    simp [startUpdateLoop, hc, hu]
  · intro hu
    simp [startUpdateLoop, hu]

/-- Witness of C13: the disconnected controller is a constructed controller, and
startUpdateLoop() throws on it. -/
theorem C13_startUpdateLoop_reachable_witness :
    Reachable sampleConstants disconnectedDrone ∧
    startUpdateLoop disconnectedDrone = Except.error NotConnectedException.mk :=
  have hr : Reachable sampleConstants disconnectedDrone :=
    Reachable.constructed disconnectedDrone ⟨rfl, rfl⟩
  ⟨hr, (C13_startUpdateLoop_reachable sampleConstants disconnectedDrone hr).2.1 rfl⟩

/-- With a configuration, a device and successful reads, processControllerInput is the last
part applied to what the reads returned. -/
theorem processControllerInput_eq (k : AFConstants) (env : TickEnv) (s s1 : ARDrone)
    (cfg : ControllerConfiguration) (device : Gamepad_device) (slow : Bool)
    (phi theta gaz yaw : ℚ)
    (hcfg : s._controllerconfig = some cfg)
    (hdev : env.Gamepad_deviceAtIndex cfg.deviceID = some device)
    (ht : processControllerInput_triggers k env cfg device s = some (s1, slow))
    (ha : processControllerInput_axes cfg device = some (phi, theta, gaz, yaw)) :
    processControllerInput k env s = some (processControllerInput_move slow phi theta gaz yaw s1) := by
  simp [processControllerInput, hcfg, hdev, ht, ha]

/-- C16 (evaluation at the failing input): on the connected controller, when
_vm.startRecording returns false or throws a runtime_error, drone_startRecording returns
true and leaves the recording flag as it was, but the last command in the queue is the
video codec command with the recording codec MP4_360P_H264_720P, and no command with the
default codec MP4_360P follows it.  When _vm.stopRecording fails, drone_stopRecording
does end with the default codec. -/
theorem C16_startRecording_fault_keeps_recording_codec :
    (drone_startRecording sampleConstants envStartFails connectedDrone).1 = true ∧
    (drone_startRecording sampleConstants envStartFails connectedDrone).2._isRecording
      = connectedDrone._isRecording ∧
    (drone_startRecording sampleConstants envStartFails connectedDrone).2._commandqueue =
      [ATCommand.FlatTrimCommand, ATCommand.ConfigIDSCommand,
       ATCommand.ConfigCommand sampleConstants.VIDEO_CODEC
         sampleConstants.MP4_360P_H264_720P] ∧
    (drone_startRecording sampleConstants envStartThrows connectedDrone).1 = true ∧
    (drone_startRecording sampleConstants envStartThrows connectedDrone).2._isRecording
      = connectedDrone._isRecording ∧
    (drone_startRecording sampleConstants envStartThrows connectedDrone).2._commandqueue =
      [ATCommand.FlatTrimCommand, ATCommand.ConfigIDSCommand,
       ATCommand.ConfigCommand sampleConstants.VIDEO_CODEC
         sampleConstants.MP4_360P_H264_720P] ∧
    ATCommand.ConfigCommand sampleConstants.VIDEO_CODEC sampleConstants.MP4_360P ∉
      (drone_startRecording sampleConstants envStartFails connectedDrone).2._commandqueue ∧
    sampleConstants.MP4_360P_H264_720P ≠ sampleConstants.MP4_360P ∧
    (drone_stopRecording sampleConstants envStopFails connectedDrone).2._commandqueue =
      [ATCommand.FlatTrimCommand, ATCommand.ConfigIDSCommand,
       ATCommand.ConfigCommand sampleConstants.VIDEO_CODEC sampleConstants.MP4_360P] := by
  simp [drone_startRecording, drone_stopRecording, drone_setConfiguration_string,
    isConnected, ARDrone.record, ARDrone.push_back, connectedDrone, disconnectedDrone,
    envStartFails, envStartThrows, envStopFails, sampleEnv, sampleConstants]

/-- C17, as stated, fails: on the connected controller takePicture() returns true and the
queue is what it was, so the queue has not grown by a list of commands that is not
empty. -/
theorem C17_counterexample_takePicture :
    connectedDrone._connected = true ∧
    (DiscreteOp.takePicture.run sampleConstants sampleEnv connectedDrone).1 = true ∧
    (DiscreteOp.takePicture.run sampleConstants sampleEnv connectedDrone).2._commandqueue
      = connectedDrone._commandqueue ∧
    ¬ ∃ cs : List ATCommand, cs ≠ [] ∧
      (DiscreteOp.takePicture.run sampleConstants sampleEnv connectedDrone).2._commandqueue
        = connectedDrone._commandqueue ++ cs := by
  simp [DiscreteOp.run, drone_takePicture, isConnected, ARDrone.record, connectedDrone,
    disconnectedDrone]

/-- C17, amended: on a connected controller every discrete operation returns true and
leaves the queue as the old queue followed by a list of commands; the list is not empty
for every operation except takePicture, which queues nothing and calls _vm.takePicture
with the file name built from the time stamp. -/
theorem C17_discrete_op_appends (k : AFConstants) (env : Env) (op : DiscreteOp) (s : ARDrone)
    (h : s._connected = true) :
    (op.run k env s).1 = true ∧
    ∃ cs : List ATCommand, (op.run k env s).2._commandqueue = s._commandqueue ++ cs ∧
      (op ≠ DiscreteOp.takePicture → cs ≠ []) ∧
      (op = DiscreteOp.takePicture → cs = [] ∧
        (op.run k env s).2.trace = s.trace ++
          [Call.vm_takePicture ("Pic_" ++ env.timestamp ++ ".jpg")]) := by
  cases op <;>
    simp only [DiscreteOp.run, drone_takeOff, drone_land, drone_emergency, drone_flattrim,
      drone_flip, drone_calibmagneto, drone_pair, drone_unpair, drone_setConfiguration_float,
      drone_setConfiguration_string, drone_startRecordingOnUSB, drone_stopRecordingOnUSB,
      drone_changeView, drone_toggleView, drone_takePicture, drone_startRecording,
      drone_stopRecording, drone_toggleRecording, isConnected, ARDrone.push_back,
      ARDrone.record, h, Bool.not_true, if_false] <;>
    (repeat' split) <;>
    simp_all

/-- Witness of C17: land() on the connected controller. -/
theorem C17_discrete_op_appends_witness :
    connectedDrone._connected = true ∧
    (DiscreteOp.land.run sampleConstants sampleEnv connectedDrone).1 = true :=
  ⟨rfl, (C17_discrete_op_appends sampleConstants sampleEnv DiscreteOp.land connectedDrone
    rfl).1⟩

/-- Float products of the slow mode at concrete axis values: 1 * 0.3f is 0.3f, 1 * 0.5f is
0.5, and at the axis value 0x1.555554p-2 the product with 0.3f, whose exact value is below
1/10, rounds to 0.1f. -/
theorem round32_slow_examples :
    round32 (1 * float_0_3) = float_0_3 ∧ round32 (1 * float_0_5) = 1 / 2 ∧
    round32 (5592405 / 16777216 * float_0_3) = float_0_1 ∧
    5592405 / 16777216 * float_0_3 < 1 / 10 := by
  refine ⟨?_, ?_, ?_, by norm_num [float_0_3]⟩
  · unfold round32
    rw [roundBinary_eq 24 (-126) (1 * float_0_3) (-2) 10066330 (1 / 2 ^ 25)
      (by norm_num [float_0_3, abs_of_pos]) (by norm_num [float_0_3, abs_of_pos])
      (by norm_num) (by norm_num [float_0_3, abs_lt])]
    norm_num [float_0_3]
  · unfold round32
    rw [roundBinary_eq 24 (-126) (1 * float_0_5) (-1) 8388608 (1 / 2 ^ 24)
      (by norm_num [float_0_5, abs_of_pos]) (by norm_num [float_0_5, abs_of_pos])
      (by norm_num) (by norm_num [float_0_5, abs_lt])]
    norm_num
  · unfold round32
    rw [roundBinary_eq 24 (-126) (5592405 / 16777216 * float_0_3) (-4) 13421773 (1 / 2 ^ 27)
      (by norm_num [float_0_3, abs_of_pos]) (by norm_num [float_0_3, abs_of_pos])
      (by norm_num) (by norm_num [float_0_3, abs_lt])]
    norm_num [float_0_1]

/-- The deadzone test is made on the rounded products: with the slow mode on, the roll
0x1.555554p-2 and the other axes at 1, the exact product of the roll with 0.3f is below
1/10 but its float is 0.1f, which is not below 0.1f, so the controller moves. -/
theorem processControllerInput_move_at_threshold (s : ARDrone) :
    processControllerInput_move true (5592405 / 16777216) 1 1 1 s =
      (drone_move float_0_1 float_0_3 (1 / 2) (1 / 2) s).2 := by
  have h := round32_slow_examples
  unfold processControllerInput_move
  simp only [if_true, h.1, h.2.1, h.2.2.1]
  rw [if_neg (by norm_num [float_0_1, float_0_3, abs_lt])]

/-- C18, as stated, fails: with the slow button held and the four axes at 1, the
controller input ends with move(0.3f, 0.3f, 0.5, 0.5): the yaw rate is the float product
1 * 0.5f = 0.5, which is neither the float product 1 * 0.3f = 0.3f nor 3/10. -/
theorem C18_counterexample_yaw_scaled_by_half :
    deviceSlowHeld.button sampleConfiguration.slow = some true ∧
    processControllerInput_axes sampleConfiguration deviceSlowHeld = some (1, 1, 1, 1) ∧
    processControllerInput sampleConstants (tickEnvOf deviceSlowHeld)
      connectedDroneWithController =
      some (drone_move float_0_3 float_0_3 (1 / 2) (1 / 2) connectedDroneWithController).2 ∧
    (drone_move float_0_3 float_0_3 (1 / 2) (1 / 2) connectedDroneWithController).2._yaw
      = 1 / 2 ∧
    round32 (1 * float_0_3) = float_0_3 ∧
    (1 / 2 : ℚ) ≠ float_0_3 ∧
    (1 / 2 : ℚ) ≠ 1 * (3 / 10) := by
  have h := round32_slow_examples
  refine ⟨?_, ?_, ?_, ?_, h.1, by norm_num [float_0_3], by norm_num⟩
  · simp [Gamepad_device.button, sampleConfiguration, deviceSlowHeld]
  · simp [processControllerInput_axes, axisValue, Gamepad_device.axis, sampleConfiguration,
      deviceSlowHeld]
  · rw [processControllerInput_eq sampleConstants (tickEnvOf deviceSlowHeld)
      connectedDroneWithController connectedDroneWithController sampleConfiguration
      deviceSlowHeld true 1 1 1 1 rfl rfl
      (by simp [processControllerInput_triggers, trigger, Gamepad_device.button,
        sampleConfiguration, deviceSlowHeld])
      (by simp [processControllerInput_axes, axisValue, Gamepad_device.axis,
        sampleConfiguration, deviceSlowHeld])]
    unfold processControllerInput_move
    simp only [if_true, h.1, h.2.1]
    rw [if_neg (by norm_num [float_0_1, float_0_3, abs_lt])]
  · simp [drone_move, isConnected, connectedDroneWithController, connectedDrone]

/-- C18, amended: with a controller configuration whose take-off index is not negative, a
device that exists and reads that succeed, the flag slow is the state of the slow button.
When it is held the deadzone test and the move use the float products roll * 0.3f,
pitch * 0.3f, vertical speed * 0.5f and yaw rate * 0.5f; when it is not held they use the
four values as read.  The constants are the floats nearest to 0.3, 0.5 and, for the
deadzone, 0.1, and the product of a float with 0.3f or 0.5f is the exact product rounded
to the nearest float, without overflow. -/
theorem C18_slow_mode_scales (k : AFConstants) (env : TickEnv) (s s1 : ARDrone)
    (cfg : ControllerConfiguration) (device : Gamepad_device) (slow : Bool)
    (phi theta gaz yaw : ℚ)
    (hcfg : s._controllerconfig = some cfg)
    (hdev : env.Gamepad_deviceAtIndex cfg.deviceID = some device)
    (hto : cfg.takeoff ≥ 0)
    (ht : processControllerInput_triggers k env cfg device s = some (s1, slow))
    (ha : processControllerInput_axes cfg device = some (phi, theta, gaz, yaw)) :
    device.button cfg.slow = some slow ∧
    (slow = true → processControllerInput k env s = some
      (if |round32 (phi * float_0_3)| < float_0_1 ∨ |round32 (theta * float_0_3)| < float_0_1 ∨
          |round32 (gaz * float_0_5)| < float_0_1 ∨ |round32 (yaw * float_0_5)| < float_0_1 then
        (drone_hover s1).2
       else (drone_move (round32 (phi * float_0_3)) (round32 (theta * float_0_3))
        (round32 (gaz * float_0_5)) (round32 (yaw * float_0_5)) s1).2)) ∧
    (slow = false → processControllerInput k env s = some
      (if |phi| < float_0_1 ∨ |theta| < float_0_1 ∨ |gaz| < float_0_1 ∨ |yaw| < float_0_1 then
        (drone_hover s1).2
       else (drone_move phi theta gaz yaw s1).2)) ∧
    (∀ x : ℚ, isFloat32 x →
      fl32 (x * float_0_3) = float.finite (round32 (x * float_0_3)) ∧
      fl32 (x * float_0_5) = float.finite (round32 (x * float_0_5))) ∧
    fl32 (3 / 10) = float.finite float_0_3 ∧
    fl32 (1 / 2) = float.finite float_0_5 ∧
    fl32 (1 / 10) = float.finite float_0_1 := by
  have heq := processControllerInput_eq k env s s1 cfg device slow phi theta gaz yaw
    hcfg hdev ht ha
  refine ⟨(processControllerInput_triggers_keeps k env cfg device s s1 slow ht).2.1 hto, ?_, ?_,
    ?_, float_literals.2.1, float_literals.2.2, float_literals.1⟩
  · intro hslow
    subst hslow
    rw [heq]
    simp [processControllerInput_move]
  · intro hslow
    subst hslow
    rw [heq]
    simp [processControllerInput_move]
  · intro x hx
    exact ⟨fl32_mul_of_small x float_0_3 hx (by norm_num [float_0_3, abs_of_pos]),
      fl32_mul_of_small x float_0_5 hx (by norm_num [float_0_5, abs_of_pos])⟩

/-- Witness of C18: the connected controller with the sample configuration and the gamepad
on which the slow button is held and the axes are at 1: the controller moves with the
float products (0.3f, 0.3f, 0.5, 0.5). -/
theorem C18_slow_mode_scales_witness :
    sampleConfiguration.takeoff ≥ 0 ∧
    deviceSlowHeld.button sampleConfiguration.slow = some true ∧
    processControllerInput sampleConstants (tickEnvOf deviceSlowHeld)
      connectedDroneWithController = some
      (if |round32 (1 * float_0_3)| < float_0_1 ∨ |round32 (1 * float_0_3)| < float_0_1 ∨
          |round32 (1 * float_0_5)| < float_0_1 ∨ |round32 (1 * float_0_5)| < float_0_1 then
        (drone_hover connectedDroneWithController).2
       else (drone_move (round32 (1 * float_0_3)) (round32 (1 * float_0_3))
        (round32 (1 * float_0_5)) (round32 (1 * float_0_5)) connectedDroneWithController).2) :=
  have h := C18_slow_mode_scales sampleConstants (tickEnvOf deviceSlowHeld)
    connectedDroneWithController connectedDroneWithController sampleConfiguration
    deviceSlowHeld true 1 1 1 1 rfl rfl (by decide)
    (by simp [processControllerInput_triggers, trigger, Gamepad_device.button,
      sampleConfiguration, deviceSlowHeld])
    (by simp [processControllerInput_axes, axisValue, Gamepad_device.axis,
      sampleConfiguration, deviceSlowHeld])
  ⟨by decide, h.1, h.2.1 rfl⟩

/-- C19 (evaluation at the failing input): on the disconnected controller, when navdata
has been received and _vm.init then throws a system_error, connect() returns
EXCEPTION_OCCURRED and has closed the transport, yet _connected, assigned before the
throw, is still true, so isConnected() holds. -/
theorem C19_connect_exception_leaves_connected :
    disconnectedDrone._connected = false ∧
    (connect sampleConstants connectEnvVideoInitThrows disconnectedDrone).1
      = connection.EXCEPTION_OCCURRED ∧
    isConnected (connect sampleConstants connectEnvVideoInitThrows disconnectedDrone).2
      = true ∧
    (connect sampleConstants connectEnvVideoInitThrows disconnectedDrone).2.trace =
      [Call.cl_init "192.168.1.1", Call.cl_setAppID, Call.sleep_for 250,
       Call.cl_sendATCommands connectBatch, Call.sleep_for 50, Call.nm_init "192.168.1.1",
       Call.sleep_for 100, Call.nm_update, Call.nm_isConnected,
       Call.vm_init "192.168.1.1", Call.cl_close] := by
  simp [connect, connect_try, connect_catch, tryCall, drone_setConfiguration_string,
    isConnected, ARDrone.record, disconnectedDrone, connectEnvVideoInitThrows, connectEnvOk]

/-- C20 (evaluation at the failing input): with the take-off button bound and the
recording button not bound (index -1), the recording trigger is guarded by the take-off
index and reads buttonStates[-1]; with the roll axis bound and the pitch axis not bound,
the pitch read is guarded by the roll index and reads axisStates[-1].  Both reads fall
outside the arrays, which is the outcome none of the controller input. -/
theorem C20_unbound_control_is_read :
    configurationRecordingUnbound.takeoff ≥ 0 ∧
    configurationRecordingUnbound.recording < 0 ∧
    trigger deviceSmallRoll configurationRecordingUnbound.takeoff
      configurationRecordingUnbound.recording
      (fun s => (drone_toggleRecording sampleConstants sampleEnv s).2) connectedDrone = none ∧
    processControllerInput sampleConstants (tickEnvOf deviceSmallRoll)
      { connectedDrone with _controllerconfig := some configurationRecordingUnbound } = none ∧
    configurationPitchUnbound.roll ≥ 0 ∧
    configurationPitchUnbound.pitch < 0 ∧
    axisValue deviceSmallRoll configurationPitchUnbound.pitchM configurationPitchUnbound.pitchP
      configurationPitchUnbound.roll configurationPitchUnbound.pitch = none ∧
    processControllerInput sampleConstants (tickEnvOf deviceSmallRoll)
      { connectedDrone with _controllerconfig := some configurationPitchUnbound } = none := by
  refine ⟨by decide, by decide, ?_, ?_, by decide, by decide, ?_, ?_⟩
  · simp [trigger, Gamepad_device.button, configurationRecordingUnbound, sampleConfiguration]
  · simp [processControllerInput, processControllerInput_triggers, trigger,
      Gamepad_device.button, tickEnvOf, configurationRecordingUnbound, sampleConfiguration,
      deviceSmallRoll]
  · simp [axisValue, Gamepad_device.axis, configurationPitchUnbound, sampleConfiguration]
  · simp [processControllerInput, processControllerInput_triggers, processControllerInput_axes,
      trigger, axisValue, Gamepad_device.button, Gamepad_device.axis, tickEnvOf,
      configurationPitchUnbound, sampleConfiguration, deviceSmallRoll]

end AutoFlight
